import Mathlib

/-!
Verification of the NACHA ACH validation engine (nachaParser.ts) and the
field-schema registry (achRecords-style tables).  JS strings are embedded as
lists of characters, JS numbers arising from `parseInt` as `Option Int`
(`none` plays the role of `NaN`), and the BigInt hash accumulators as `Nat`.
-/

set_option maxHeartbeats 1000000
set_option maxRecDepth 8000

/-- A JS string, embedded as its list of characters. -/
abbrev Str := List Char

/-- Coerce a Lean string literal to the `Str` embedding. -/
def str (s : String) : Str := s.data

/-- `line.substring(start, end)` for `start ≤ end` (clamps at the length). -/
def substr (l : Str) (s e : Nat) : Str := (l.drop s).take (e - s)

/-- `String.prototype.trim`: whitespace stripped from both ends. -/
def trimStr (s : Str) : Str :=
  ((s.dropWhile Char.isWhitespace).reverse.dropWhile Char.isWhitespace).reverse

/-- The regex test `/^\d+$/`. -/
def isNumericStr (s : Str) : Bool := !s.isEmpty && s.all Char.isDigit

/-- The regex test `/^\d{n}$/`. -/
def matchDigits (n : Nat) (s : Str) : Bool := s.length == n && s.all Char.isDigit

/-- `line.length === 94 && /^9{94}$/.test(line)`: a blocking/padding row. -/
def isPaddingRow (line : Str) : Bool :=
  line.length == 94 && line.all (fun c => c == '9')

/-- Numeric value of a digit character, `none` for a non-digit. -/
def charDigit (c : Char) : Option Nat :=
  if c.isDigit then some (c.toNat - 48) else none

/-- Value of a string of decimal digits (used for `BigInt(rdfi)` on a
validated 8-digit string). -/
def digitsVal (s : Str) : Nat := s.foldl (fun a c => a * 10 + (c.toNat - 48)) 0

/-- Longest digit prefix, `none` when it is empty. -/
def digitsPrefixVal (s : Str) : Option Nat :=
  let ds := s.takeWhile Char.isDigit
  if ds.isEmpty then none else some (digitsVal ds)

/-- `parseInt(s, 10)`: skip leading whitespace, optional sign, longest digit
prefix; `none` models `NaN`. -/
def jsParseInt (s : Str) : Option Int :=
  let t := s.dropWhile Char.isWhitespace
  match t with
  | [] => none
  | c :: rest =>
    if c = '-' then (digitsPrefixVal rest).map (fun n => -(n : Int))
    else if c = '+' then (digitsPrefixVal rest).map (fun n => (n : Int))
    else (digitsPrefixVal (c :: rest)).map (fun n => (n : Int))

/-- JS `===` on numbers where the left side may be `NaN` (`NaN` equals
nothing, itself included). -/
def jsNumEqO (a b : Option Int) : Bool :=
  match a, b with
  | some x, some y => x == y
  | _, _ => false

/-- Template-literal rendering of a possibly-`NaN` number. -/
def jsNumStr (c : Option Int) : Str :=
  match c with
  | none => str "NaN"
  | some v => str (toString v)

/-- `(v / 100).toFixed(2)`: exact decimal rendering of a cents amount. -/
def toFixed2Cents (v : Int) : Str :=
  let m := v.natAbs
  let sign : Str := if v < 0 then str "-" else []
  let frac : Str :=
    if m % 100 < 10 then str "0" ++ str (Nat.repr (m % 100))
    else str (Nat.repr (m % 100))
  sign ++ str (Nat.repr (m / 100)) ++ str "." ++ frac

/-- `(c / 100).toFixed(2)` where `c` may be `NaN`. -/
def jsDollar (c : Option Int) : Str :=
  match c with
  | none => str "NaN"
  | some v => toFixed2Cents v

/-- `s.padStart(w, '0')`. -/
def padStartZeros (w : Nat) (s : Str) : Str :=
  List.replicate (w - s.length) '0' ++ s

/-- `text.split(/\r?\n/)`, accumulator-based worker. -/
def splitLinesGo : Str → Str → List Str
  | acc, [] => [acc.reverse]
  | acc, '\r' :: '\n' :: rest => acc.reverse :: splitLinesGo [] rest
  | acc, '\n' :: rest => acc.reverse :: splitLinesGo [] rest
  | acc, c :: rest => splitLinesGo (c :: acc) rest

/-- `text.split(/\r?\n/)`. -/
def splitLines (text : Str) : List Str := splitLinesGo [] text

/-- Index of the last line whose trimmed content is non-empty. -/
def lastNonEmptyIndex : List Str → Option Nat
  | [] => none
  | l :: rest =>
    match lastNonEmptyIndex rest with
    | some k => some (k + 1)
    | none => if (trimStr l).length > 0 then some 0 else none

/-- A diagnostic: 0-based line, half-open column span, message, severity. -/
structure AchDiagnostic where
  line : Nat
  start : Nat
  endPos : Nat
  message : Str
  severity : Nat
deriving DecidableEq, Repr

/-- The mutable scan state of `parseAch`. -/
structure ParseState where
  seenFileHeader : Bool
  openBatch : Bool
  batchCount : Nat
  totalEntryCount : Nat
  totalDebitAmount : Int
  totalCreditAmount : Int
  totalEntryHash : Nat
  currentBatchHeaderLine : Int
  currentBatchEntryCount : Nat
  currentBatchDebitAmount : Int
  currentBatchCreditAmount : Int
  currentBatchEntryHash : Nat
  currentBatchServiceClass : Str
  currentBatchId : Str
  currentBatchOdfi : Str
  currentBatchNumber : Str
  currentBatchSec : Str
deriving DecidableEq, Repr

/-- The initial values of `parseAch`'s scan variables. -/
def initState : ParseState where
  seenFileHeader := false
  openBatch := false
  batchCount := 0
  totalEntryCount := 0
  totalDebitAmount := 0
  totalCreditAmount := 0
  totalEntryHash := 0
  currentBatchHeaderLine := -1
  currentBatchEntryCount := 0
  currentBatchDebitAmount := 0
  currentBatchCreditAmount := 0
  currentBatchEntryHash := 0
  currentBatchServiceClass := []
  currentBatchId := []
  currentBatchOdfi := []
  currentBatchNumber := []
  currentBatchSec := []

/-- `routing.length === 8 && /^\d+$/.test(routing)`. -/
def validateRouting (routing : Str) : Bool :=
  routing.length == 8 && isNumericStr routing

/-- ABA check digit: weights `[3,7,1,3,7,1,3,7]` over `routing8[0..7]`,
`(10 - (sum % 10)) % 10`; `none` models the `NaN` produced by a missing or
non-digit position. -/
def calculateCheckDigit (routing8 : Str) : Option Nat :=
  let sum :=
    [(0, 3), (1, 7), (2, 1), (3, 3), (4, 7), (5, 1), (6, 3), (7, 7)].foldl
      (fun acc (p : Nat × Nat) =>
        match acc, (routing8.get? p.1).bind charDigit with
        | some a, some d => some (a + d * p.2)
        | _, _ => none) (some 0)
  sum.map (fun s => (10 - s % 10) % 10)

/-- `case '1'` of `parseAch`: File Header record. -/
def processCase1 (st : ParseState) (i : Nat) (line : Str) :
    ParseState × List AchDiagnostic :=
  let d1 := if st.seenFileHeader then
    [⟨i, 0, 1, str "Multiple File Header records (type 1) found", 1⟩] else []
  let d2 := if i != 0 then
    [⟨i, 0, 1, str "File Header (type 1) should be the first record", 1⟩] else []
  let priorityCode := substr line 1 3
  let d3 := if priorityCode != str "01" then
    [⟨i, 1, 3, str "Priority Code should be \x2701\x27, found \x27" ++
      priorityCode ++ str "\x27", 2⟩] else []
  let d4 := if (trimStr (substr line 3 13)).length == 0 then
    [⟨i, 3, 13, str "Immediate Destination is required", 1⟩] else []
  let d5 := if (trimStr (substr line 13 23)).length == 0 then
    [⟨i, 13, 23, str "Immediate Origin is required", 1⟩] else []
  let d6 := if !matchDigits 6 (substr line 23 29) then
    [⟨i, 23, 29, str "File Creation Date must be YYMMDD format", 1⟩] else []
  let fileTime := substr line 29 33
  let d7 := if (trimStr fileTime).length > 0 && !matchDigits 4 fileTime then
    [⟨i, 29, 33, str "File Creation Time should be HHMM format", 2⟩] else []
  let d8 := if substr line 34 37 != str "094" then
    [⟨i, 34, 37, str "Record Size must be 094", 1⟩] else []
  let d9 := if substr line 37 39 != str "10" then
    [⟨i, 37, 39, str "Blocking Factor must be 10", 1⟩] else []
  let d10 := if substr line 39 40 != str "1" then
    [⟨i, 39, 40, str "Format Code must be 1", 1⟩] else []
  ({ st with seenFileHeader := true },
   d1 ++ d2 ++ d3 ++ d4 ++ d5 ++ d6 ++ d7 ++ d8 ++ d9 ++ d10)

/-- `case '5'` of `parseAch`: Batch Header record. -/
def processCase5 (st : ParseState) (i : Nat) (line : Str) :
    ParseState × List AchDiagnostic :=
  let d1 := if !st.seenFileHeader then
    [⟨i, 0, 1, str "Batch Header (type 5) appears before File Header (type 1)", 1⟩]
    else []
  let d2 := if st.openBatch then
    [⟨i, 0, 1,
      str "Nested Batch Header (type 5) without closing previous batch (type 8)", 1⟩]
    else []
  let sc := substr line 1 4
  let sec := trimStr (substr line 50 53)
  let st1 : ParseState :=
    { st with
      batchCount := st.batchCount + 1
      openBatch := true
      currentBatchHeaderLine := (i : Int)
      currentBatchEntryCount := 0
      currentBatchDebitAmount := 0
      currentBatchCreditAmount := 0
      currentBatchEntryHash := 0
      currentBatchServiceClass := sc
      currentBatchId := substr line 40 50
      currentBatchOdfi := substr line 79 87
      currentBatchNumber := substr line 87 94
      currentBatchSec := sec }
  let validServiceClasses :=
    if sec == str "IAT" then [str "200", str "220", str "225"]
    else [str "200", str "220", str "225", str "280"]
  let d3 := if !(validServiceClasses.contains sc) then
    [⟨i, 1, 4, str "Invalid Service Class Code for " ++ sec ++
      str ". Expected " ++ List.intercalate (str ", ") validServiceClasses, 1⟩]
    else []
  let d4 := if sec == str "IAT" then
    (if substr line 4 7 != str "IAT" then
      [⟨i, 4, 7, str "IAT batches must have \"IAT\" in positions 5-7", 1⟩] else [])
    else []
  let d5 := if !matchDigits 6 (substr line 69 75) then
    [⟨i, 69, 75, str "Effective Entry Date must be YYMMDD format", 1⟩] else []
  let d6 := if substr line 78 79 != str "1" then
    [⟨i, 78, 79, str "Originator Status Code must be 1", 1⟩] else []
  (st1, d1 ++ d2 ++ d3 ++ d4 ++ d5 ++ d6)

/-- `case '6'` of `parseAch`: Entry Detail record. -/
def processCase6 (st : ParseState) (i : Nat) (line : Str) :
    ParseState × List AchDiagnostic :=
  let d1 := if !st.openBatch then
    [⟨i, 0, 1, str "Entry Detail (type 6) appears outside of an open batch", 1⟩]
    else []
  let st1 : ParseState :=
    { st with
      currentBatchEntryCount := st.currentBatchEntryCount + 1
      totalEntryCount := st.totalEntryCount + 1 }
  let lastDigit := jsParseInt (substr (substr line 1 3) 1 2)
  let amount := jsParseInt (substr line 29 39)
  let d2 := if amount.isNone then
    [⟨i, 29, 39, str "Amount must be numeric", 1⟩] else []
  let st2 : ParseState :=
    match amount, lastDigit with
    | some a, some ld =>
      if 0 ≤ ld && ld ≤ 4 then
        { st1 with
          currentBatchCreditAmount := st1.currentBatchCreditAmount + a
          totalCreditAmount := st1.totalCreditAmount + a }
      else if 5 ≤ ld && ld ≤ 9 then
        { st1 with
          currentBatchDebitAmount := st1.currentBatchDebitAmount + a
          totalDebitAmount := st1.totalDebitAmount + a }
      else st1
    | _, _ => st1
  let rdfi := substr line 3 11
  let checkDigit := jsParseInt (substr line 11 12)
  let expectedCheckDigit := (calculateCheckDigit rdfi).map Int.ofNat
  let st3 : ParseState :=
    if validateRouting rdfi then
      { st2 with
        currentBatchEntryHash := st2.currentBatchEntryHash + digitsVal rdfi
        totalEntryHash := st2.totalEntryHash + digitsVal rdfi }
    else st2
  let d3 : List AchDiagnostic :=
    if validateRouting rdfi then
      if !(jsNumEqO checkDigit expectedCheckDigit) then
        [⟨i, 11, 12, str "Invalid Check Digit. Expected " ++
          jsNumStr expectedCheckDigit ++ str " for routing " ++ rdfi, 1⟩]
      else []
    else [⟨i, 3, 11, str "Receiving DFI Identification must be 8 digits", 1⟩]
  let d4 :=
    if st.currentBatchSec == str "IAT" then
      (if substr line 78 79 != str "1" then
        [⟨i, 78, 79, str "Addenda Record Indicator must be 1 for IAT entries", 1⟩]
       else []) ++
      (let numAddendaStr := substr line 15 17
       let numAddenda := jsParseInt numAddendaStr
       if (match numAddenda with | none => true | some v => v < 7) then
         [⟨i, 15, 17, str "IAT entries must have at least 07 addenda records (found " ++
           numAddendaStr ++ str ")", 1⟩]
       else [])
    else
      (if substr line 78 79 != str "0" && substr line 78 79 != str "1" then
        [⟨i, 78, 79, str "Addenda Record Indicator must be 0 or 1", 1⟩]
       else [])
  (st3, d1 ++ d2 ++ d3 ++ d4)

/-- `case '7'` of `parseAch`: Addenda record. -/
def processCase7 (st : ParseState) (i : Nat) (_line : Str) :
    ParseState × List AchDiagnostic :=
  let d1 := if !st.openBatch then
    [⟨i, 0, 1, str "Addenda (type 7) appears outside of an open batch", 1⟩] else []
  ({ st with
      currentBatchEntryCount := st.currentBatchEntryCount + 1
      totalEntryCount := st.totalEntryCount + 1 }, d1)

/-- `case '8'` of `parseAch`: Batch Control record. -/
def processCase8 (st : ParseState) (i : Nat) (line : Str) :
    ParseState × List AchDiagnostic :=
  let d1 := if !st.openBatch then
    [⟨i, 0, 1,
      str "Batch Control (type 8) appears without a matching Batch Header (type 5)", 1⟩]
    else []
  let st1 : ParseState := { st with openBatch := false }
  let d2 := if substr line 1 4 != st.currentBatchServiceClass then
    [⟨i, 1, 4, str "Service Class Code matches Batch Header (" ++
      st.currentBatchServiceClass ++ str ")", 1⟩] else []
  let d3 := if substr line 44 54 != st.currentBatchId then
    [⟨i, 44, 54, str "Company Identification matches Batch Header (" ++
      st.currentBatchId ++ str ")", 1⟩] else []
  let d4 := if substr line 79 87 != st.currentBatchOdfi then
    [⟨i, 79, 87, str "Originating DFI Identification matches Batch Header (" ++
      st.currentBatchOdfi ++ str ")", 1⟩] else []
  let d5 := if substr line 87 94 != st.currentBatchNumber then
    [⟨i, 87, 94, str "Batch Number matches Batch Header (" ++
      st.currentBatchNumber ++ str ")", 1⟩] else []
  let ctrlEntryCount := jsParseInt (substr line 4 10)
  let d6 := if !(jsNumEqO ctrlEntryCount (some (Int.ofNat st.currentBatchEntryCount))) then
    [⟨i, 4, 10, str "Entry/Addenda Count (" ++ jsNumStr ctrlEntryCount ++
      str ") does not match actual count (" ++
      str (Nat.repr st.currentBatchEntryCount) ++ str ")", 1⟩] else []
  let ctrlHashStr := substr line 10 20
  let currentBatchHashTail :=
    padStartZeros 10 (str (Nat.repr (st.currentBatchEntryHash % 10000000000)))
  let d7 := if ctrlHashStr != currentBatchHashTail then
    [⟨i, 10, 20, str "Entry Hash (" ++ ctrlHashStr ++
      str ") does not match calculated hash (" ++ currentBatchHashTail ++ str ")", 1⟩]
    else []
  let ctrlDebitAmount := jsParseInt (substr line 20 32)
  let d8 := if !(jsNumEqO ctrlDebitAmount (some st.currentBatchDebitAmount)) then
    [⟨i, 20, 32, str "Total Debit amount ($" ++ jsDollar ctrlDebitAmount ++
      str ") does not match actual ($" ++ toFixed2Cents st.currentBatchDebitAmount ++
      str ")", 1⟩] else []
  let ctrlCreditAmount := jsParseInt (substr line 32 44)
  let d9 := if !(jsNumEqO ctrlCreditAmount (some st.currentBatchCreditAmount)) then
    [⟨i, 32, 44, str "Total Credit amount ($" ++ jsDollar ctrlCreditAmount ++
      str ") does not match actual ($" ++ toFixed2Cents st.currentBatchCreditAmount ++
      str ")", 1⟩] else []
  (st1, d1 ++ d2 ++ d3 ++ d4 ++ d5 ++ d6 ++ d7 ++ d8 ++ d9)

/-- `case '9'` of `parseAch`: File Control record. -/
def processCase9 (lines : List Str) (st : ParseState) (i : Nat) (line : Str) :
    ParseState × List AchDiagnostic :=
  let d1 := if !st.seenFileHeader then
    [⟨i, 0, 1, str "File Control (type 9) appears before File Header", 1⟩] else []
  let d2 := if st.openBatch then
    [⟨i, 0, 1, str "File Control (type 9) appears while a batch is still open", 1⟩]
    else []
  let hasNonPaddingAfter :=
    (lines.drop (i + 1)).any
      (fun l => decide ((trimStr l).length > 0) && !(isPaddingRow l))
  let d3 := if hasNonPaddingAfter then
    [⟨i, 0, 1, str "File Control should be the final record (excluding padding)", 1⟩]
    else []
  let fileBatchCount := jsParseInt (substr line 1 7)
  let d4 := if !(jsNumEqO fileBatchCount (some (Int.ofNat st.batchCount))) then
    [⟨i, 1, 7, str "Batch Count (" ++ jsNumStr fileBatchCount ++
      str ") does not match actual batch count (" ++ str (Nat.repr st.batchCount) ++
      str ")", 1⟩] else []
  let fileEntryCount := jsParseInt (substr line 13 21)
  let d5 := if !(jsNumEqO fileEntryCount (some (Int.ofNat st.totalEntryCount))) then
    [⟨i, 13, 21, str "Total Entry/Addenda Count (" ++ jsNumStr fileEntryCount ++
      str ") does not match actual count (" ++ str (Nat.repr st.totalEntryCount) ++
      str ")", 1⟩] else []
  let fileHashStr := substr line 21 31
  let fileHashTail :=
    padStartZeros 10 (str (Nat.repr (st.totalEntryHash % 10000000000)))
  let d6 := if fileHashStr != fileHashTail then
    [⟨i, 21, 31, str "File Entry Hash (" ++ fileHashStr ++
      str ") does not match calculated hash (" ++ fileHashTail ++ str ")", 1⟩]
    else []
  let fileDebitAmount := jsParseInt (substr line 31 43)
  let d7 := if !(jsNumEqO fileDebitAmount (some st.totalDebitAmount)) then
    [⟨i, 31, 43, str "File Total Debit amount ($" ++ jsDollar fileDebitAmount ++
      str ") does not match actual ($" ++ toFixed2Cents st.totalDebitAmount ++
      str ")", 1⟩] else []
  let fileCreditAmount := jsParseInt (substr line 43 55)
  let d8 := if !(jsNumEqO fileCreditAmount (some st.totalCreditAmount)) then
    [⟨i, 43, 55, str "File Total Credit amount ($" ++ jsDollar fileCreditAmount ++
      str ") does not match actual ($" ++ toFixed2Cents st.totalCreditAmount ++
      str ")", 1⟩] else []
  let totalRecords := (lines.filter (fun l => (trimStr l).length > 0)).length
  let expectedBlockCount := (totalRecords + 9) / 10
  let fileBlockCount := jsParseInt (substr line 7 13)
  let d9 := if !(jsNumEqO fileBlockCount (some (Int.ofNat expectedBlockCount))) then
    [⟨i, 7, 13, str "Block Count (" ++ jsNumStr fileBlockCount ++
      str ") does not match calculated count (" ++ str (Nat.repr expectedBlockCount) ++
      str ") based on " ++ str (Nat.repr totalRecords) ++ str " records", 2⟩] else []
  (st, d1 ++ d2 ++ d3 ++ d4 ++ d5 ++ d6 ++ d7 ++ d8 ++ d9)

/-- The unknown-record-type diagnostic of the scan loop. -/
def unknownTypeDiags (i : Nat) (line : Str) : List AchDiagnostic :=
  let firstChar := line.headD ' '
  if [ '1', '5', '6', '7', '8', '9'].contains firstChar then []
  else
    [⟨i, 0, max 1 (min line.length 1),
      str "Unknown record type \x27" ++ [firstChar] ++
      str "\x27. Expected 1, 5, 6, 7, 8, or 9", 1⟩]

/-- The record-length diagnostics of the scan loop: an error below 94
characters, a hint above 94. -/
def lengthDiags (i : Nat) (line : Str) : List AchDiagnostic :=
  if line.length < 94 then
    [⟨i, 0, max 1 line.length, str "Record length " ++
      str (Nat.repr line.length) ++ str " is less than required 94 characters", 1⟩]
  else if 94 < line.length then
    [⟨i, 94, line.length, str "Record length " ++ str (Nat.repr line.length) ++
      str " exceeds 94 characters (extra trailing data)", 3⟩]
  else []

/-- One iteration of `parseAch`'s scan loop over line `i`. -/
def processLine (lines : List Str) (i : Nat) (st : ParseState) (line : Str) :
    ParseState × List AchDiagnostic :=
  if line.length == 0 then
    (st,
     if i + 1 < lines.length then
       [⟨i, 0, 1, str "Unexpected blank line in ACH file", 2⟩]
     else [])
  else if isPaddingRow line then (st, [])
  else
    let firstChar := line.headD ' '
    let out :=
      if firstChar == '1' then processCase1 st i line
      else if firstChar == '5' then processCase5 st i line
      else if firstChar == '6' then processCase6 st i line
      else if firstChar == '7' then processCase7 st i line
      else if firstChar == '8' then processCase8 st i line
      else if firstChar == '9' then processCase9 lines st i line
      else (st, [])
    (out.1, unknownTypeDiags i line ++ lengthDiags i line ++ out.2)

/-- The scan loop of `parseAch`, threading state and concatenating
diagnostics in emission order. -/
def parseAchGo (lines : List Str) : Nat → ParseState → List Str →
    ParseState × List AchDiagnostic
  | _, st, [] => (st, [])
  | i, st, l :: rest =>
    let out := processLine lines i st l
    let out2 := parseAchGo lines (i + 1) out.1 rest
    (out2.1, out.2 ++ out2.2)

/-- The post-pass checks of `parseAch` (missing File Header / File Control). -/
def finalDiags (lines : List Str) (st : ParseState) : List AchDiagnostic :=
  if lines.any (fun l => l.length > 0) then
    (if st.seenFileHeader then []
     else [⟨0, 0, 1, str "Missing File Header (type 1) record", 1⟩]) ++
    (match lastNonEmptyIndex lines with
     | some k =>
       if (lines.getD k []).headD ' ' == '9' then []
       else [⟨k, 0, 1, str "Missing File Control (type 9) record", 1⟩]
     | none => [])
  else []

/-- `parseAch(text)`: split on CR/LF, scan every line, append the post-pass
checks. -/
def parseAch (text : Str) : List AchDiagnostic :=
  let lines := splitLines text
  let out := parseAchGo lines 0 initState lines
  out.2 ++ finalDiags lines out.1

/-- A fixed-position field descriptor of the schema registry. -/
structure FieldDefinition where
  start : Nat
  stop : Nat
  name : Str
  description : Str
deriving DecidableEq, Repr

/-- Shorthand constructor for a schema table row. -/
def fd (s e : Nat) (n d : String) : FieldDefinition := ⟨s, e, str n, str d⟩

/-- `iatRecordFields`: IAT layouts for Batch Header and Entry Detail. -/
def iatRecordFields (k : Str) : Option (List FieldDefinition) :=
  if k == str "5" then some
    [fd 0 1 "Record Type Code" "5 - Batch Header Record",
     fd 1 4 "Service Class Code" "200=Mixed, 220=Credits, 225=Debits",
     fd 4 12 "IAT Indicator" "Always \"IAT      \"",
     fd 12 20 "Reserved" "Blank/spaces",
     fd 20 22 "Foreign Exchange Indicator"
       "FV=Fixed-to-Variable, VF=Variable-to-Fixed, FF=Fixed-to-Fixed",
     fd 22 23 "Foreign Exchange Reference Indicator"
       "1=Exchange Rate, 2=Reference Number, 3=Space filled",
     fd 23 38 "Foreign Exchange Reference" "Exchange rate or reference number",
     fd 38 40 "ISO Destination Country Code" "2-character ISO country code",
     fd 40 50 "Originator Identification" "Company tax ID or other identifier",
     fd 50 53 "Standard Entry Class" "Always IAT",
     fd 53 63 "Company Entry Description" "Description of entries (e.g., PAYROLL)",
     fd 63 66 "ISO Originating Currency Code" "3-character ISO currency code",
     fd 66 69 "ISO Destination Currency Code" "3-character ISO currency code",
     fd 69 75 "Effective Entry Date" "YYMMDD - Date transactions should post",
     fd 75 78 "Settlement Date (Julian)" "Reserved/blank or Julian date",
     fd 78 79 "Originator Status Code" "Always 1",
     fd 79 87 "Originating DFI Identification" "First 8 digits of routing number",
     fd 87 94 "Batch Number" "Sequential batch number within file"]
  else if k == str "6" then some
    [fd 0 1 "Record Type Code" "6 - Entry Detail Record",
     fd 1 3 "Transaction Code" "22=Chk Credit, 27=Chk Debit, 32=Sav Credit, 37=Sav Debit",
     fd 3 11 "Receiving DFI Identification"
       "First 8 digits of receiving bank routing number",
     fd 11 12 "Check Digit" "9th digit of routing number (checksum)",
     fd 12 15 "Reserved" "Blank/spaces",
     fd 15 17 "Number of Addenda Records" "Total addenda records for this entry",
     fd 17 29 "Reserved" "Blank/spaces",
     fd 29 39 "Amount" "Transaction amount in cents",
     fd 39 74 "Foreign Receiver\x27s Account Number" "Receiver account number",
     fd 74 76 "Reserved" "Blank/spaces",
     fd 76 78 "Gateway Operator Screening Indicator" "OFAC status",
     fd 78 79 "Addenda Record Indicator" "Always 1 for IAT",
     fd 79 94 "Trace Number" "Unique transaction identifier"]
  else none

/-- `addendaIATFields`: the seven mandatory IAT addenda layouts, keyed by the
2-digit addenda type code. -/
def addendaIATFields (k : Str) : Option (List FieldDefinition) :=
  if k == str "10" then some
    [fd 0 1 "Record Type Code" "7 - Addenda Record",
     fd 1 3 "Addenda Type Code" "10 - IAT Batch Header Addenda",
     fd 3 6 "Transaction Type Code" "ANN=Annuity, BUS=Business, DEP=Deposit, etc.",
     fd 6 24 "Foreign Payment Amount" "Amount in foreign currency",
     fd 24 26 "Foreign Exchange Indicator" "FV, VF, or FF",
     fd 26 61 "Receiver Name" "Name of the receiver",
     fd 61 79 "Reserved" "Blank/spaces",
     fd 79 94 "Trace Number" "Links to entry detail record"]
  else if k == str "11" then some
    [fd 0 1 "Record Type Code" "7",
     fd 1 3 "Addenda Type Code" "11 - Originator Addenda",
     fd 3 38 "Originator Name" "Full name of the originator",
     fd 38 73 "Originator Street Address" "Originator\x27s street address",
     fd 73 79 "Reserved" "Blank/spaces",
     fd 79 94 "Trace Number" "Links to entry detail record"]
  else if k == str "12" then some
    [fd 0 1 "Record Type Code" "7",
     fd 1 3 "Addenda Type Code" "12 - Originator Address Addenda",
     fd 3 38 "Originator City" "City name",
     fd 38 73 "Originator State/Country/Postal" "State, Country Code, and Postal Code",
     fd 73 79 "Reserved" "Blank/spaces",
     fd 79 94 "Trace Number" "Links to entry detail record"]
  else if k == str "13" then some
    [fd 0 1 "Record Type Code" "7",
     fd 1 3 "Addenda Type Code" "13 - Originating DFI Addenda",
     fd 3 38 "ODFI Name" "Name of originating bank",
     fd 38 73 "ODFI ID / Country Code" "Bank ID and country code",
     fd 73 79 "Reserved" "Blank/spaces",
     fd 79 94 "Trace Number" "Links to entry detail record"]
  else if k == str "14" then some
    [fd 0 1 "Record Type Code" "7",
     fd 1 3 "Addenda Type Code" "14 - Receiving DFI Addenda",
     fd 3 38 "RDFI Name" "Name of receiving bank",
     fd 38 73 "RDFI ID / Country Code" "Bank ID and country code",
     fd 73 79 "Reserved" "Blank/spaces",
     fd 79 94 "Trace Number" "Links to entry detail record"]
  else if k == str "15" then some
    [fd 0 1 "Record Type Code" "7",
     fd 1 3 "Addenda Type Code" "15 - Receiver Addenda",
     fd 3 38 "Receiver ID Number" "Tax ID or individual ID",
     fd 38 73 "Receiver Street Address" "Receiver\x27s street address",
     fd 73 79 "Reserved" "Blank/spaces",
     fd 79 94 "Trace Number" "Links to entry detail record"]
  else if k == str "16" then some
    [fd 0 1 "Record Type Code" "7",
     fd 1 3 "Addenda Type Code" "16 - Receiver Address Addenda",
     fd 3 38 "Receiver City" "City name",
     fd 38 73 "Receiver State/Country/Postal" "State, Country Code, and Postal Code",
     fd 73 79 "Reserved" "Blank/spaces",
     fd 79 94 "Trace Number" "Links to entry detail record"]
  else none

/-- `recordFields`: the domestic layouts, keyed by record type character. -/
def recordFields (k : Str) : Option (List FieldDefinition) :=
  if k == str "1" then some
    [fd 0 1 "Record Type Code" "1 - File Header Record",
     fd 1 3 "Priority Code" "Always 01",
     fd 3 13 "Immediate Destination" "Routing number of receiving bank",
     fd 13 23 "Immediate Origin" "Routing number or tax ID of originator",
     fd 23 29 "File Creation Date" "YYMMDD format",
     fd 29 33 "File Creation Time" "HHMM format (optional)",
     fd 33 34 "File ID Modifier" "A-Z or 0-9, increments for multiple files per day",
     fd 34 37 "Record Size" "Always 094",
     fd 37 39 "Blocking Factor" "Always 10",
     fd 39 40 "Format Code" "Always 1",
     fd 40 63 "Immediate Destination Name" "Name of receiving bank",
     fd 63 86 "Immediate Origin Name" "Name of originating company",
     fd 86 94 "Reference Code" "Optional reference code"]
  else if k == str "5" then some
    [fd 0 1 "Record Type Code" "5 - Batch Header Record",
     fd 1 4 "Service Class Code" "200=Mixed, 220=Credits, 225=Debits, 280=Automated",
     fd 4 20 "Company Name" "Name of the company originating the batch",
     fd 20 40 "Company Discretionary Data" "Optional data for company use",
     fd 40 50 "Company Identification" "Tax ID or routing number",
     fd 50 53 "Standard Entry Class" "PPD, CCD, WEB, TEL, etc.",
     fd 53 63 "Company Entry Description" "Description of entries (e.g., PAYROLL)",
     fd 63 69 "Company Descriptive Date" "Optional date in any format",
     fd 69 75 "Effective Entry Date" "YYMMDD - Date transactions should post",
     fd 75 78 "Settlement Date (Julian)" "Reserved/blank or Julian date",
     fd 78 79 "Originator Status Code" "Always 1",
     fd 79 87 "Originating DFI Identification" "First 8 digits of routing number",
     fd 87 94 "Batch Number" "Sequential batch number within file"]
  else if k == str "6" then some
    [fd 0 1 "Record Type Code" "6 - Entry Detail Record",
     fd 1 3 "Transaction Code" "22=Chk Credit, 27=Chk Debit, 32=Sav Credit, 37=Sav Debit",
     fd 3 11 "Receiving DFI Identification"
       "First 8 digits of receiving bank routing number",
     fd 11 12 "Check Digit" "9th digit of routing number (checksum)",
     fd 12 29 "DFI Account Number" "Receiver account number (left-justified)",
     fd 29 39 "Amount" "Transaction amount in cents (10 digits, zero-filled)",
     fd 39 54 "Individual Identification Number" "Optional identification number",
     fd 54 76 "Individual Name" "Name of account holder",
     fd 76 78 "Discretionary Data" "Optional data for originator use",
     fd 78 79 "Addenda Record Indicator" "0=No addenda, 1=Addenda follows",
     fd 79 94 "Trace Number" "Unique transaction identifier (ODFI + sequence)"]
  else if k == str "7" then some
    [fd 0 1 "Record Type Code" "7 - Addenda Record",
     fd 1 3 "Addenda Type Code" "02=Standard, 05=ACH, etc.",
     fd 3 83 "Payment Related Information"
       "Additional transaction details or payment information",
     fd 83 87 "Addenda Sequence Number" "Sequential number for multiple addenda",
     fd 87 94 "Entry Detail Sequence Number" "Links to entry detail record"]
  else if k == str "8" then some
    [fd 0 1 "Record Type Code" "8 - Batch Control Record",
     fd 1 4 "Service Class Code" "Must match batch header (200, 220, 225, 280)",
     fd 4 10 "Entry/Addenda Count" "Total number of entry and addenda records in batch",
     fd 10 20 "Entry Hash" "Sum of first 8 digits of all routing numbers in batch",
     fd 20 32 "Total Debit Entry Dollar Amount"
       "Sum of all debit amounts in batch (in cents)",
     fd 32 44 "Total Credit Entry Dollar Amount"
       "Sum of all credit amounts in batch (in cents)",
     fd 44 54 "Company Identification" "Must match batch header",
     fd 54 73 "Message Authentication Code" "Optional security code",
     fd 73 79 "Reserved" "Blank/spaces",
     fd 79 87 "Originating DFI Identification" "Must match batch header",
     fd 87 94 "Batch Number" "Must match batch header"]
  else if k == str "9" then some
    [fd 0 1 "Record Type Code" "9 - File Control Record",
     fd 1 7 "Batch Count" "Total number of batch headers (type 5) in file",
     fd 7 13 "Block Count" "Total number of physical blocks in file",
     fd 13 21 "Entry/Addenda Count" "Total number of entry and addenda records in file",
     fd 21 31 "Entry Hash" "Sum of all entry hashes from batch controls",
     fd 31 43 "Total Debit Entry Dollar Amount" "Sum of all debits in file (in cents)",
     fd 43 55 "Total Credit Entry Dollar Amount" "Sum of all credits in file (in cents)",
     fd 55 94 "Reserved" "Blank/spaces"]
  else none

/-- `getFieldsForRecord(recordType, line?, secCode?)`: IAT-aware layout
selection with fallback to the domestic layout. -/
def getFieldsForRecord (recordType : Str) (line : Option Str) (secCode : Option Str) :
    Option (List FieldDefinition) :=
  let fields : Option (List FieldDefinition) :=
    if secCode == some (str "IAT") then
      if recordType == str "5" || recordType == str "6" then
        iatRecordFields recordType
      else if recordType == str "7" &&
          (match line with | some l => 3 ≤ l.length | none => false) then
        match line with
        | some l => (addendaIATFields (substr l 1 3)).or (recordFields (str "7"))
        | none => none
      else none
    else none
  match fields with
  | some fs => some fs
  | none => recordFields recordType

/-- `getFieldAtPosition`: first descriptor of the selected layout whose
`[start, stop)` range contains `position`. -/
def getFieldAtPosition (recordType : Str) (position : Nat) (line : Option Str)
    (secCode : Option Str) : Option FieldDefinition :=
  match getFieldsForRecord recordType line secCode with
  | none => none
  | some fs => fs.find? (fun f => position ≥ f.start && position < f.stop)

/-! ### Membership and traversal lemmas -/

/-- Membership in a Bool-guarded branch of diagnostics. -/
lemma mem_iteList {α : Type} {b : Bool} {l1 l2 : List α} {d : α} :
    (d ∈ if b then l1 else l2) ↔ (b = true ∧ d ∈ l1) ∨ (b = false ∧ d ∈ l2) := by
  cases b <;> simp

/-- `List.all` over a Bool-guarded singleton. -/
lemma all_iteCons {α : Type} (p : α → Bool) (b : Bool) (x : α) :
    (if b then [x] else []).all p = (!b || p x) := by
  cases b <;> simp

lemma processCase1_lines (st : ParseState) (i : Nat) (line : Str) :
    ((processCase1 st i line).2).all (fun d => d.line == i) = true := by
  simp [processCase1, List.all_append, all_iteCons] <;> aesop

lemma processCase5_lines (st : ParseState) (i : Nat) (line : Str) :
    ((processCase5 st i line).2).all (fun d => d.line == i) = true := by
  simp [processCase5, List.all_append, all_iteCons] <;> aesop

lemma processCase6_lines (st : ParseState) (i : Nat) (line : Str) :
    ((processCase6 st i line).2).all (fun d => d.line == i) = true := by
  simp [processCase6, List.all_append, all_iteCons] <;> aesop

lemma processCase7_lines (st : ParseState) (i : Nat) (line : Str) :
    ((processCase7 st i line).2).all (fun d => d.line == i) = true := by
  simp [processCase7, List.all_append, all_iteCons]

lemma processCase8_lines (st : ParseState) (i : Nat) (line : Str) :
    ((processCase8 st i line).2).all (fun d => d.line == i) = true := by
  simp [processCase8, List.all_append, all_iteCons]

lemma processCase9_lines (lines : List Str) (st : ParseState) (i : Nat) (line : Str) :
    ((processCase9 lines st i line).2).all (fun d => d.line == i) = true := by
  simp [processCase9, List.all_append, all_iteCons] <;> aesop

lemma unknownTypeDiags_lines (i : Nat) (line : Str) :
    (unknownTypeDiags i line).all (fun d => d.line == i) = true := by
  simp [unknownTypeDiags, all_iteCons]
  aesop

lemma lengthDiags_lines (i : Nat) (line : Str) :
    (lengthDiags i line).all (fun d => d.line == i) = true := by
  unfold lengthDiags
  split
  · simp
  · split <;> simp

/-- Every diagnostic emitted while scanning line `i` carries line index `i`. -/
lemma processLine_lines (lines : List Str) (i : Nat) (st : ParseState) (line : Str) :
    ((processLine lines i st line).2).all (fun d => d.line == i) = true := by
  unfold processLine
  split
  · split <;> simp
  · split
    · simp
    · simp only [List.all_append, Bool.and_eq_true]
      refine ⟨⟨unknownTypeDiags_lines .., lengthDiags_lines ..⟩, ?_⟩
      split
      · exact processCase1_lines ..
      · split
        · exact processCase5_lines ..
        · split
          · exact processCase6_lines ..
          · split
            · exact processCase7_lines ..
            · split
              · exact processCase8_lines ..
              · split
                · exact processCase9_lines ..
                · simp

/-- Pointwise form of `processLine_lines`. -/
lemma processLine_line_eq {lines : List Str} {i : Nat} {st : ParseState} {line : Str}
    {d : AchDiagnostic} (hd : d ∈ (processLine lines i st line).2) : d.line = i := by
  have h := processLine_lines lines i st line
  rw [List.all_eq_true] at h
  simpa using h d hd

/-- Diagnostics of the scan loop started at index `i0` reference only lines
in `[i0, i0 + remaining)`. -/
lemma parseAchGo_line_bound (lines : List Str) :
    ∀ (ls : List Str) (i0 : Nat) (st : ParseState),
      ∀ d ∈ (parseAchGo lines i0 st ls).2, i0 ≤ d.line ∧ d.line < i0 + ls.length := by
  intro ls
  induction ls with
  | nil => intro i0 st d hd; simp [parseAchGo] at hd
  | cons l rest ih =>
    intro i0 st d hd
    simp only [parseAchGo, List.mem_append] at hd
    rcases hd with hd | hd
    · have := processLine_line_eq hd
      subst this
      simp
    · have := ih (i0 + 1) (processLine lines i0 st l).1 d hd
      constructor <;> [omega; (simp only [List.length_cons]; omega)]

/-- `text.split` never yields an empty list of lines. -/
lemma splitLinesGo_ne_nil (acc t : Str) : splitLinesGo acc t ≠ [] := by
  induction acc, t using splitLinesGo.induct <;> simp [splitLinesGo, *]

lemma splitLines_ne_nil (t : Str) : splitLines t ≠ [] := splitLinesGo_ne_nil [] t

/-- `lastNonEmptyIndex` returns a valid index whose line trims non-empty. -/
lemma lastNonEmptyIndex_spec :
    ∀ (ls : List Str) (k : Nat), lastNonEmptyIndex ls = some k →
      k < ls.length ∧ (trimStr (ls.getD k [])).length > 0 := by
  intro ls
  induction ls with
  | nil => intro k h; simp [lastNonEmptyIndex] at h
  | cons l rest ih =>
    intro k h
    simp only [lastNonEmptyIndex] at h
    cases hrec : lastNonEmptyIndex rest with
    | none =>
      simp only [hrec] at h
      by_cases hc : (trimStr l).length > 0
      · rw [if_pos hc] at h
        obtain rfl : (0 : Nat) = k := by simpa using h
        simpa using hc
      · rw [if_neg hc] at h
        simp at h
    | some k' =>
      simp only [hrec] at h
      obtain rfl : k' + 1 = k := by simpa using h
      obtain ⟨h1, h2⟩ := ih k' hrec
      exact ⟨by simpa using h1, by simpa using h2⟩

lemma trimStr_nil : trimStr [] = [] := rfl

/-- A line that trims non-empty is itself non-empty. -/
lemma length_pos_of_trim_pos {l : Str} (h : (trimStr l).length > 0) : l.length > 0 := by
  rcases l with _ | ⟨c, l⟩
  · simp [trimStr_nil] at h
  · simp

/-- If some line trims non-empty then the file has content. -/
lemma any_of_lastNonEmptyIndex {ls : List Str} {k : Nat}
    (h : lastNonEmptyIndex ls = some k) : ls.any (fun l => l.length > 0) = true := by
  obtain ⟨hk, ht⟩ := lastNonEmptyIndex_spec ls k h
  have := length_pos_of_trim_pos ht
  rw [List.any_eq_true]
  refine ⟨ls.getD k [], ?_, by simpa using this⟩
  rw [List.getD_eq_getElem ls [] hk]
  exact List.getElem_mem hk

/-! ### C1: diagnostics reference valid line indices -/

/-- C1: for every input string, `parseAch` (the `validate` entry point)
terminates (it is a total function) and every diagnostic it returns carries a
line index that is a valid 0-based index into the CR/LF split of the input;
empty input yields the empty diagnostic list. -/
theorem parseAch_line_indices_valid :
    (∀ (text : Str), ∀ d ∈ parseAch text, d.line < (splitLines text).length) ∧
    parseAch (str "") = [] := by
  constructor
  · intro text d hd
    simp only [parseAch, List.mem_append] at hd
    rcases hd with hd | hd
    · have := (parseAchGo_line_bound (splitLines text) (splitLines text) 0 initState d hd).2
      simpa using this
    · rw [finalDiags] at hd
      split at hd
      · simp only [List.mem_append] at hd
        rcases hd with hd | hd
        · split at hd
          · simp at hd
          · obtain rfl := List.mem_singleton.mp hd
            exact List.length_pos.mpr (splitLines_ne_nil text)
        · split at hd
          · next k hmatch =>
            split at hd
            · simp at hd
            · obtain rfl := List.mem_singleton.mp hd
              exact (lastNonEmptyIndex_spec _ k hmatch).1
          · simp at hd
      · simp at hd
  · rfl

/-! ### C3: the routing check-digit formula -/

/-- C3: on a string of exactly 8 digit characters, `calculateCheckDigit`
returns `(10 - ((3*d0+7*d1+1*d2+3*d3+7*d4+1*d5+3*d6+7*d7) % 10)) % 10`, a
digit in 0..9; on "06100010" it returns 4. -/
theorem calculateCheckDigit_formula (c0 c1 c2 c3 c4 c5 c6 c7 : Char)
    (h0 : c0.isDigit = true) (h1 : c1.isDigit = true) (h2 : c2.isDigit = true)
    (h3 : c3.isDigit = true) (h4 : c4.isDigit = true) (h5 : c5.isDigit = true)
    (h6 : c6.isDigit = true) (h7 : c7.isDigit = true) :
    calculateCheckDigit [c0, c1, c2, c3, c4, c5, c6, c7] =
      some ((10 - (3 * (c0.toNat - 48) + 7 * (c1.toNat - 48) + 1 * (c2.toNat - 48) +
        3 * (c3.toNat - 48) + 7 * (c4.toNat - 48) + 1 * (c5.toNat - 48) +
        3 * (c6.toNat - 48) + 7 * (c7.toNat - 48)) % 10) % 10) ∧
    ((10 - (3 * (c0.toNat - 48) + 7 * (c1.toNat - 48) + 1 * (c2.toNat - 48) +
        3 * (c3.toNat - 48) + 7 * (c4.toNat - 48) + 1 * (c5.toNat - 48) +
        3 * (c6.toNat - 48) + 7 * (c7.toNat - 48)) % 10) % 10) ≤ 9 ∧
    calculateCheckDigit (str "06100010") = some 4 := by
  refine ⟨?_, ?_, by decide⟩
  · simp [calculateCheckDigit, charDigit, h0, h1, h2, h3, h4, h5, h6, h7]
    congr 2
    ring
  · have := Nat.mod_lt (10 - (3 * (c0.toNat - 48) + 7 * (c1.toNat - 48) +
      1 * (c2.toNat - 48) + 3 * (c3.toNat - 48) + 7 * (c4.toNat - 48) +
      1 * (c5.toNat - 48) + 3 * (c6.toNat - 48) + 7 * (c7.toNat - 48)) % 10)
      (show 0 < 10 by norm_num)
    omega

/-- Witness for `calculateCheckDigit_formula` at the digits of "06100010". -/
theorem calculateCheckDigit_formula_witness :
    calculateCheckDigit [ '0', '6', '1', '0', '0', '0', '1', '0'] =
      some ((10 - (3 * ('0'.toNat - 48) + 7 * ('6'.toNat - 48) + 1 * ('1'.toNat - 48) +
        3 * ('0'.toNat - 48) + 7 * ('0'.toNat - 48) + 1 * ('0'.toNat - 48) +
        3 * ('1'.toNat - 48) + 7 * ('0'.toNat - 48)) % 10) % 10) ∧
    ((10 - (3 * ('0'.toNat - 48) + 7 * ('6'.toNat - 48) + 1 * ('1'.toNat - 48) +
        3 * ('0'.toNat - 48) + 7 * ('0'.toNat - 48) + 1 * ('0'.toNat - 48) +
        3 * ('1'.toNat - 48) + 7 * ('0'.toNat - 48)) % 10) % 10) ≤ 9 ∧
    calculateCheckDigit (str "06100010") = some 4 :=
  calculateCheckDigit_formula '0' '6' '1' '0' '0' '0' '1' '0'
    (by decide) (by decide) (by decide) (by decide)
    (by decide) (by decide) (by decide) (by decide)

/-! ### Head-character reductions of the scan step -/

/-- A padding row starts with the digit 9. -/
lemma isPaddingRow_head {l : Str} (h : isPaddingRow l = true) : l.head? = some '9' := by
  rw [isPaddingRow, Bool.and_eq_true] at h
  rcases l with _ | ⟨c, l⟩
  · simp at h
  · have := h.2
    simp only [List.all_cons, Bool.and_eq_true, beq_iff_eq] at this
    simp [this.1]

/-- Scanning an Entry Detail line is the length checks plus `processCase6`. -/
lemma processLine_eq_case6 {lines : List Str} {i : Nat} {st : ParseState}
    {line : Str} (h : line.head? = some '6') :
    processLine lines i st line =
      ((processCase6 st i line).1,
       unknownTypeDiags i line ++ lengthDiags i line ++ (processCase6 st i line).2) := by
  rcases line with _ | ⟨c, rest⟩
  · simp at h
  · obtain rfl : c = '6' := by simpa using h
    rw [processLine]
    simp [isPaddingRow]

/-- Scanning a Batch Control line is the length checks plus `processCase8`. -/
lemma processLine_eq_case8 {lines : List Str} {i : Nat} {st : ParseState}
    {line : Str} (h : line.head? = some '8') :
    processLine lines i st line =
      ((processCase8 st i line).1,
       unknownTypeDiags i line ++ lengthDiags i line ++ (processCase8 st i line).2) := by
  rcases line with _ | ⟨c, rest⟩
  · simp at h
  · obtain rfl : c = '8' := by simpa using h
    rw [processLine]
    simp [isPaddingRow]

/-- Scanning a non-padding File Control line is the length checks plus
`processCase9`. -/
lemma processLine_eq_case9 {lines : List Str} {i : Nat} {st : ParseState}
    {line : Str} (h : line.head? = some '9') (hp : isPaddingRow line = false) :
    processLine lines i st line =
      ((processCase9 lines st i line).1,
       unknownTypeDiags i line ++ lengthDiags i line ++ (processCase9 lines st i line).2) := by
  rcases line with _ | ⟨c, rest⟩
  · simp at h
  · obtain rfl : c = '9' := by simpa using h
    rw [processLine]
    simp [hp]

/-! ### parseInt on empty and single-character fields -/

lemma isWhitespace_false_of_isDigit {c : Char} (h : c.isDigit = true) :
    c.isWhitespace = false := by
  cases hw : c.isWhitespace
  · rfl
  · exfalso
    simp only [Char.isWhitespace, Bool.or_eq_true, decide_eq_true_eq] at hw
    have hc : c = ' ' ∨ c = '\t' ∨ c = '\r' ∨ c = '\n' := by tauto
    rcases hc with rfl | rfl | rfl | rfl <;> exact absurd h (by decide)

lemma jsParseInt_nil : jsParseInt [] = none := rfl

/-- `parseInt` of a one-character string is the digit value of that
character (or `NaN`). -/
lemma jsParseInt_singleton (c : Char) :
    jsParseInt [c] = (charDigit c).map (fun n => (n : Int)) := by
  by_cases hd : c.isDigit = true
  · have hw := isWhitespace_false_of_isDigit hd
    have hm : c ≠ '-' := by rintro rfl; simp [Char.isDigit] at hd
    have hp : c ≠ '+' := by rintro rfl; simp [Char.isDigit] at hd
    rw [jsParseInt]
    simp only [List.dropWhile, hw]
    rw [if_neg hm, if_neg hp]
    simp [digitsPrefixVal, digitsVal, List.takeWhile, hd, charDigit]
  · have hd' : c.isDigit = false := by simpa using hd
    rw [jsParseInt]
    cases hw : c.isWhitespace
    · simp only [List.dropWhile, hw]
      by_cases hm : c = '-'
      · subst hm; simp [digitsPrefixVal, charDigit]
      · by_cases hp : c = '+'
        · subst hp; simp [digitsPrefixVal, charDigit]
        · rw [if_neg hm, if_neg hp]
          simp [digitsPrefixVal, List.takeWhile, hd', charDigit]
    · simp [List.dropWhile, hw, charDigit, hd']

/-- A one-character `substring` field in terms of the character itself. -/
lemma substr_one (l : Str) (n : Nat) :
    substr l n (n + 1) = ((l[n]?).map (fun c => [c])).getD [] := by
  rw [substr]
  have h1 : n + 1 - n = 1 := by omega
  rw [h1]
  rcases hd : l.drop n with _ | ⟨c, rest⟩
  · have hn : l[n]? = none := by
      rw [← List.head?_drop, hd]; rfl
    simp [hn]
  · have hn : l[n]? = some c := by
      rw [← List.head?_drop, hd]; rfl
    simp [hn]

/-! ### C4 preparation -/

/-- An 8-digit routing prefix always has a well-defined check digit below 10. -/
lemma validateRouting_some {r : Str} (h : validateRouting r = true) :
    ∃ e, calculateCheckDigit r = some e ∧ e ≤ 9 := by
  rw [validateRouting, Bool.and_eq_true, beq_iff_eq] at h
  obtain ⟨hlen, hdig⟩ := h
  rw [isNumericStr, Bool.and_eq_true] at hdig
  have hall := hdig.2
  obtain ⟨c0, c1, c2, c3, c4, c5, c6, c7, rfl⟩ :
      ∃ a0 a1 a2 a3 a4 a5 a6 a7, r = [a0, a1, a2, a3, a4, a5, a6, a7] := by
    rcases r with _ | ⟨a0, _ | ⟨a1, _ | ⟨a2, _ | ⟨a3, _ | ⟨a4, _ | ⟨a5, _ | ⟨a6, _ | ⟨a7, _ | ⟨a8, t⟩⟩⟩⟩⟩⟩⟩⟩⟩ <;> first | exact ⟨_, _, _, _, _, _, _, _, rfl⟩ | simp at hlen
  simp only [List.all_cons, List.all_nil, Bool.and_eq_true, and_true] at hall
  obtain ⟨h0, h1, h2, h3, h4, h5, h6, h7⟩ := hall
  have hs : calculateCheckDigit [c0, c1, c2, c3, c4, c5, c6, c7] =
      some ((10 - (3 * (c0.toNat - 48) + 7 * (c1.toNat - 48) + 1 * (c2.toNat - 48) +
        3 * (c3.toNat - 48) + 7 * (c4.toNat - 48) + 1 * (c5.toNat - 48) +
        3 * (c6.toNat - 48) + 7 * (c7.toNat - 48)) % 10) % 10) := by
    simp [calculateCheckDigit, charDigit, h0, h1, h2, h3, h4, h5, h6, h7]
    congr 2
    ring
  refine ⟨_, hs, ?_⟩
  have := Nat.mod_lt (10 - (3 * (c0.toNat - 48) + 7 * (c1.toNat - 48) +
    1 * (c2.toNat - 48) + 3 * (c3.toNat - 48) + 7 * (c4.toNat - 48) +
    1 * (c5.toNat - 48) + 3 * (c6.toNat - 48) + 7 * (c7.toNat - 48)) % 10)
    (show 0 < 10 by norm_num)
  omega

/-- The engine's check-digit comparison succeeds exactly when the character
in column 11 is the digit character of the expected check digit. -/
lemma jsNumEq_checkDigit_iff {l : Str} {e : Nat} :
    jsNumEqO (jsParseInt (substr l 11 12)) (some ((e : Int))) = true ↔
      (l[11]?).bind charDigit = some e := by
  have h12 : substr l 11 12 = ((l[11]?).map (fun c => [c])).getD [] :=
    substr_one l 11
  rw [h12]
  rcases h11 : l[11]? with _ | c
  · simp [jsParseInt_nil, jsNumEqO]
  · show jsNumEqO (jsParseInt [c]) _ = true ↔ charDigit c = some e
    rw [jsParseInt_singleton]
    rcases hc : charDigit c with _ | d
    · simp [jsNumEqO]
    · simp [jsNumEqO, Int.ofNat_inj, Nat.cast_inj]

/-- A line with a known record-type character gets no unknown-type
diagnostic. -/
lemma unknownTypeDiags_eq_nil {line : Str} {c : Char} (h : line.head? = some c)
    (hk : [ '1', '5', '6', '7', '8', '9'].contains c = true) (i : Nat) :
    unknownTypeDiags i line = [] := by
  rcases line with _ | ⟨a, rest⟩
  · simp at h
  · obtain rfl : a = c := by simpa using h
    rw [unknownTypeDiags]
    simp only [List.headD_cons]
    rw [if_pos hk]

/-- Length diagnostics start at column 0 or 94. -/
lemma lengthDiags_span {i : Nat} {line : Str} {d : AchDiagnostic}
    (hd : d ∈ lengthDiags i line) : d.start = 0 ∨ d.start = 94 := by
  rw [lengthDiags] at hd
  split at hd
  · simp only [List.mem_singleton] at hd; subst hd; left; rfl
  · split at hd
    · simp only [List.mem_singleton] at hd; subst hd; right; rfl
    · simp at hd

/-- C4: for an Entry Detail line processed by `validate` whose RDFI field
(columns `[3,11)`) is a valid 8-digit routing prefix with check digit `e`, a
mismatching column-11 character always produces the "Invalid Check Digit"
diagnostic, and a matching one produces no diagnostic spanning columns
`[11,12)`. -/
theorem entryDetail_invalid_check_digit (lines : List Str) (i : Nat)
    (st : ParseState) (l : Str) (e : Nat)
    (h6 : l.head? = some '6')
    (hr : validateRouting (substr l 3 11) = true)
    (he : calculateCheckDigit (substr l 3 11) = some e) :
    ((l[11]?).bind charDigit ≠ some e →
      (⟨i, 11, 12, str "Invalid Check Digit. Expected " ++
        jsNumStr (some ((e : Int))) ++ str " for routing " ++ substr l 3 11, 1⟩ :
        AchDiagnostic) ∈ (processLine lines i st l).2) ∧
    ((l[11]?).bind charDigit = some e →
      ∀ d ∈ (processLine lines i st l).2, ¬(d.start = 11 ∧ d.endPos = 12)) := by
  have huk : unknownTypeDiags i l = [] := unknownTypeDiags_eq_nil h6 (by decide) i
  rw [processLine_eq_case6 h6]
  constructor
  · intro hne
    have hcond : jsNumEqO (jsParseInt (substr l 11 12)) (some ((e : Int))) = false := by
      rw [Bool.eq_false_iff]
      intro ht
      exact hne (jsNumEq_checkDigit_iff.mp ht)
    simp [processCase6, huk, hr, he, hcond]
  · intro heq d hd
    have hcondT : jsNumEqO (jsParseInt (substr l 11 12))
        ((calculateCheckDigit (substr l 3 11)).map Int.ofNat) = true := by
      rw [he]
      exact jsNumEq_checkDigit_iff.mpr heq
    simp only [huk, List.nil_append, List.mem_append] at hd
    rcases hd with hd | hd
    · rcases lengthDiags_span hd with h0 | h94 <;> (rintro ⟨ha, hb⟩; omega)
    · simp only [processCase6, hr, hcondT, mem_iteList, List.mem_append,
        List.mem_singleton, List.not_mem_nil] at hd
      rintro ⟨ha, hb⟩
      aesop

/-- Witness for `entryDetail_invalid_check_digit`: the routing prefix
"06100010" has check digit 4; a line carrying '5' in column 11 gets the
diagnostic and a line carrying '4' does not. -/
theorem entryDetail_invalid_check_digit_witness :
    (validateRouting (substr (str "6220610001050000000") 3 11) = true ∧
     ((str "6220610001050000000")[11]?).bind charDigit ≠ some 4 ∧
     (⟨0, 11, 12, str "Invalid Check Digit. Expected " ++
       jsNumStr (some (((4 : Nat) : Int))) ++ str " for routing " ++
       substr (str "6220610001050000000") 3 11, 1⟩ : AchDiagnostic) ∈
       (processLine [] 0 initState (str "6220610001050000000")).2) ∧
    (((str "6220610001040000000")[11]?).bind charDigit = some 4 ∧
     ∀ d ∈ (processLine [] 0 initState (str "6220610001040000000")).2,
       ¬(d.start = 11 ∧ d.endPos = 12)) :=
  ⟨⟨by decide, by decide,
    (entryDetail_invalid_check_digit [] 0 initState _ 4
      (by decide) (by decide) (by decide)).1 (by decide)⟩,
   ⟨by decide,
    (entryDetail_invalid_check_digit [] 0 initState _ 4
      (by decide) (by decide) (by decide)).2 (by decide)⟩⟩

/-- C6: an Entry Detail inside a batch whose SEC code is "IAT" whose declared
addenda-count field (columns `[15,17)`) is non-numeric or below 7 always
receives the IAT addenda-count diagnostic; outside an IAT batch no diagnostic
spanning columns `[15,17)` is emitted. -/
theorem entryDetail_iat_addenda_count (lines : List Str) (i : Nat)
    (st : ParseState) (l : Str) (h6 : l.head? = some '6') :
    (st.currentBatchSec = str "IAT" →
      (jsParseInt (substr l 15 17) = none ∨
        ∃ v, jsParseInt (substr l 15 17) = some v ∧ v < 7) →
      (⟨i, 15, 17, str "IAT entries must have at least 07 addenda records (found " ++
        substr l 15 17 ++ str ")", 1⟩ : AchDiagnostic) ∈
        (processLine lines i st l).2) ∧
    (st.currentBatchSec ≠ str "IAT" →
      ∀ d ∈ (processLine lines i st l).2, ¬(d.start = 15 ∧ d.endPos = 17)) := by
  have huk : unknownTypeDiags i l = [] := unknownTypeDiags_eq_nil h6 (by decide) i
  rw [processLine_eq_case6 h6]
  constructor
  · intro hsec hcond
    have hmatch : (match jsParseInt (substr l 15 17) with
        | none => true | some v => decide (v < 7)) = true := by
      rcases hcond with h | ⟨v, hv, hlt⟩
      · rw [h]
      · rw [hv]
        simpa using hlt
    simp [processCase6, huk, hsec, hmatch]
  · intro hsec d hd
    have hsec' : (st.currentBatchSec == str "IAT") = false := by simpa using hsec
    simp only [huk, List.nil_append, List.mem_append] at hd
    rcases hd with hd | hd
    · rcases lengthDiags_span hd with h0 | h94 <;> (rintro ⟨ha, hb⟩; omega)
    · simp only [processCase6, hsec', mem_iteList, List.mem_append,
        List.mem_singleton, List.not_mem_nil] at hd
      rintro ⟨ha, hb⟩
      aesop

/-- Witness for `entryDetail_iat_addenda_count`: an entry declaring 02
addenda inside an IAT batch gets the diagnostic; the same entry in a PPD
batch gets no `[15,17)` diagnostic. -/
theorem entryDetail_iat_addenda_count_witness :
    (({ initState with currentBatchSec := str "IAT" } : ParseState).currentBatchSec =
        str "IAT" ∧
     (∃ v, jsParseInt (substr (str "622061000104   02") 15 17) = some v ∧ v < 7) ∧
     (⟨0, 15, 17, str "IAT entries must have at least 07 addenda records (found " ++
       substr (str "622061000104   02") 15 17 ++ str ")", 1⟩ : AchDiagnostic) ∈
       (processLine [] 0 { initState with currentBatchSec := str "IAT" }
         (str "622061000104   02")).2) ∧
    (({ initState with currentBatchSec := str "PPD" } : ParseState).currentBatchSec ≠
        str "IAT" ∧
     ∀ d ∈ (processLine [] 0 { initState with currentBatchSec := str "PPD" }
         (str "622061000104   02")).2, ¬(d.start = 15 ∧ d.endPos = 17)) :=
  ⟨⟨by decide, ⟨2, by decide, by decide⟩,
    (entryDetail_iat_addenda_count [] 0 _ _ (by decide)).1 (by decide)
      (Or.inr ⟨2, by decide, by decide⟩)⟩,
   ⟨by decide,
    (entryDetail_iat_addenda_count [] 0 _ _ (by decide)).2 (by decide)⟩⟩

/-- C2: both entry-hash cross-checks compare the declared 10-character field
against the accumulated hash reduced modulo `10^10` and rendered as a
zero-padded decimal string, so the mismatch diagnostic (spanning `[10,20)` on
a Batch Control line, `[21,31)` on a File Control line) appears exactly when
the declared field differs from that residue string — no truncation of sums
at or above `10^10`. -/
theorem entry_hash_mod_1e10 (lines : List Str) (i : Nat) (st : ParseState)
    (l8 l9 : Str) (h8 : l8.head? = some '8') (h9 : l9.head? = some '9')
    (hp9 : isPaddingRow l9 = false) :
    ((∃ d ∈ (processLine lines i st l8).2, d.start = 10 ∧ d.endPos = 20) ↔
      substr l8 10 20 ≠
        padStartZeros 10 (str (Nat.repr (st.currentBatchEntryHash % 10000000000)))) ∧
    ((∃ d ∈ (processLine lines i st l9).2, d.start = 21 ∧ d.endPos = 31) ↔
      substr l9 21 31 ≠
        padStartZeros 10 (str (Nat.repr (st.totalEntryHash % 10000000000)))) := by
  have huk8 : unknownTypeDiags i l8 = [] := unknownTypeDiags_eq_nil h8 (by decide) i
  have huk9 : unknownTypeDiags i l9 = [] := unknownTypeDiags_eq_nil h9 (by decide) i
  constructor
  · rw [processLine_eq_case8 h8]
    constructor
    · rintro ⟨d, hd, ha, hb⟩
      simp only [huk8, List.nil_append, List.mem_append] at hd
      rcases hd with hd | hd
      · rcases lengthDiags_span hd with h | h <;> omega
      · simp only [processCase8, mem_iteList, List.mem_append, List.mem_singleton,
          List.not_mem_nil] at hd
        aesop
    · intro hne
      have hc : (substr l8 10 20 !=
          padStartZeros 10 (str (Nat.repr (st.currentBatchEntryHash % 10000000000)))) =
          true := bne_iff_ne.mpr hne
      refine ⟨⟨i, 10, 20, str "Entry Hash (" ++ substr l8 10 20 ++
        str ") does not match calculated hash (" ++
        padStartZeros 10 (str (Nat.repr (st.currentBatchEntryHash % 10000000000))) ++
        str ")", 1⟩, ?_, rfl, rfl⟩
      simp [processCase8, huk8, hc]
  · rw [processLine_eq_case9 h9 hp9]
    constructor
    · rintro ⟨d, hd, ha, hb⟩
      simp only [huk9, List.nil_append, List.mem_append] at hd
      rcases hd with hd | hd
      · rcases lengthDiags_span hd with h | h <;> omega
      · simp only [processCase9, mem_iteList, List.mem_append, List.mem_singleton,
          List.not_mem_nil] at hd
        aesop
    · intro hne
      have hc : (substr l9 21 31 !=
          padStartZeros 10 (str (Nat.repr (st.totalEntryHash % 10000000000)))) =
          true := bne_iff_ne.mpr hne
      refine ⟨⟨i, 21, 31, str "File Entry Hash (" ++ substr l9 21 31 ++
        str ") does not match calculated hash (" ++
        padStartZeros 10 (str (Nat.repr (st.totalEntryHash % 10000000000))) ++
        str ")", 1⟩, ?_, rfl, rfl⟩
      simp [processCase9, huk9, hc]

/-- Witness for `entry_hash_mod_1e10`: with an accumulated batch hash of
`10^10 + 5`, a declared field "0000000005" equals the residue rendering, so
the comparison (per the instantiated equivalence) reconciles. -/
theorem entry_hash_mod_1e10_witness :
    substr (str "82000000010000000005") 10 20 =
      padStartZeros 10 (str (Nat.repr ((10000000005 : Nat) % 10000000000))) ∧
    ((∃ d ∈ (processLine [] 0
        { initState with currentBatchEntryHash := 10000000005 }
        (str "82000000010000000005")).2, d.start = 10 ∧ d.endPos = 20) ↔
      substr (str "82000000010000000005") 10 20 ≠
        padStartZeros 10 (str (Nat.repr ((10000000005 : Nat) % 10000000000)))) :=
  ⟨by decide,
   (entry_hash_mod_1e10 [] 0 { initState with currentBatchEntryHash := 10000000005 }
     (str "82000000010000000005") (str "9") (by decide) (by decide) (by decide)).1⟩

/-- C10: a Batch Control line processed while no batch is open still runs the
whole case: the "without a matching Batch Header" diagnostic is emitted, the
open-batch flag is cleared, and all eight cross-checks (service class,
company id, ODFI id, batch number, entry count, entry hash, debit, credit)
compare the line against the current snapshot fields and accumulators — which
are the empty strings and zeros of `initState` when no Batch Header was ever
seen. -/
theorem batchControl_without_header_checks (lines : List Str) (i : Nat)
    (st : ParseState) (l : Str) (h8 : l.head? = some '8')
    (hob : st.openBatch = false) :
    ((⟨i, 0, 1,
        str "Batch Control (type 8) appears without a matching Batch Header (type 5)",
        1⟩ : AchDiagnostic) ∈ (processLine lines i st l).2) ∧
    ((processLine lines i st l).1.openBatch = false) ∧
    ((∃ d ∈ (processLine lines i st l).2, d.start = 1 ∧ d.endPos = 4) ↔
      substr l 1 4 ≠ st.currentBatchServiceClass) ∧
    ((∃ d ∈ (processLine lines i st l).2, d.start = 44 ∧ d.endPos = 54) ↔
      substr l 44 54 ≠ st.currentBatchId) ∧
    ((∃ d ∈ (processLine lines i st l).2, d.start = 79 ∧ d.endPos = 87) ↔
      substr l 79 87 ≠ st.currentBatchOdfi) ∧
    ((∃ d ∈ (processLine lines i st l).2, d.start = 87 ∧ d.endPos = 94) ↔
      substr l 87 94 ≠ st.currentBatchNumber) ∧
    ((∃ d ∈ (processLine lines i st l).2, d.start = 4 ∧ d.endPos = 10) ↔
      jsNumEqO (jsParseInt (substr l 4 10))
        (some ((st.currentBatchEntryCount : Int))) = false) ∧
    ((∃ d ∈ (processLine lines i st l).2, d.start = 10 ∧ d.endPos = 20) ↔
      substr l 10 20 ≠
        padStartZeros 10 (str (Nat.repr (st.currentBatchEntryHash % 10000000000)))) ∧
    ((∃ d ∈ (processLine lines i st l).2, d.start = 20 ∧ d.endPos = 32) ↔
      jsNumEqO (jsParseInt (substr l 20 32)) (some st.currentBatchDebitAmount) =
        false) ∧
    ((∃ d ∈ (processLine lines i st l).2, d.start = 32 ∧ d.endPos = 44) ↔
      jsNumEqO (jsParseInt (substr l 32 44)) (some st.currentBatchCreditAmount) =
        false) ∧
    (initState.currentBatchServiceClass = str "" ∧ initState.currentBatchId = str "" ∧
     initState.currentBatchOdfi = str "" ∧ initState.currentBatchNumber = str "" ∧
     initState.currentBatchEntryCount = 0 ∧ initState.currentBatchEntryHash = 0 ∧
     initState.currentBatchDebitAmount = 0 ∧ initState.currentBatchCreditAmount = 0) := by
  have huk : unknownTypeDiags i l = [] := unknownTypeDiags_eq_nil h8 (by decide) i
  rw [processLine_eq_case8 h8]
  refine ⟨?_, by rfl, ?_, ?_, ?_, ?_, ?_, ?_, ?_, ?_, by decide⟩
  · simp [processCase8, huk, hob]
  all_goals constructor
  · rintro ⟨d, hd, ha, hb⟩
    simp only [huk, List.nil_append, List.mem_append] at hd
    rcases hd with hd | hd
    · rcases lengthDiags_span hd with h | h <;> omega
    · simp only [processCase8, mem_iteList, List.mem_append, List.mem_singleton,
        List.not_mem_nil] at hd
      aesop
  · intro hne
    have hc : (substr l 1 4 != st.currentBatchServiceClass) = true := bne_iff_ne.mpr hne
    refine ⟨⟨i, 1, 4, str "Service Class Code matches Batch Header (" ++
      st.currentBatchServiceClass ++ str ")", 1⟩, ?_, rfl, rfl⟩
    simp [processCase8, huk, hc]
  · rintro ⟨d, hd, ha, hb⟩
    simp only [huk, List.nil_append, List.mem_append] at hd
    rcases hd with hd | hd
    · rcases lengthDiags_span hd with h | h <;> omega
    · simp only [processCase8, mem_iteList, List.mem_append, List.mem_singleton,
        List.not_mem_nil] at hd
      aesop
  · intro hne
    have hc : (substr l 44 54 != st.currentBatchId) = true := bne_iff_ne.mpr hne
    refine ⟨⟨i, 44, 54, str "Company Identification matches Batch Header (" ++
      st.currentBatchId ++ str ")", 1⟩, ?_, rfl, rfl⟩
    simp [processCase8, huk, hc]
  · rintro ⟨d, hd, ha, hb⟩
    simp only [huk, List.nil_append, List.mem_append] at hd
    rcases hd with hd | hd
    · rcases lengthDiags_span hd with h | h <;> omega
    · simp only [processCase8, mem_iteList, List.mem_append, List.mem_singleton,
        List.not_mem_nil] at hd
      aesop
  · intro hne
    have hc : (substr l 79 87 != st.currentBatchOdfi) = true := bne_iff_ne.mpr hne
    refine ⟨⟨i, 79, 87, str "Originating DFI Identification matches Batch Header (" ++
      st.currentBatchOdfi ++ str ")", 1⟩, ?_, rfl, rfl⟩
    simp [processCase8, huk, hc]
  · rintro ⟨d, hd, ha, hb⟩
    simp only [huk, List.nil_append, List.mem_append] at hd
    rcases hd with hd | hd
    · rcases lengthDiags_span hd with h | h <;> omega
    · simp only [processCase8, mem_iteList, List.mem_append, List.mem_singleton,
        List.not_mem_nil] at hd
      aesop
  · intro hne
    have hc : (substr l 87 94 != st.currentBatchNumber) = true := bne_iff_ne.mpr hne
    refine ⟨⟨i, 87, 94, str "Batch Number matches Batch Header (" ++
      st.currentBatchNumber ++ str ")", 1⟩, ?_, rfl, rfl⟩
    simp [processCase8, huk, hc]
  · rintro ⟨d, hd, ha, hb⟩
    simp only [huk, List.nil_append, List.mem_append] at hd
    rcases hd with hd | hd
    · rcases lengthDiags_span hd with h | h <;> omega
    · simp only [processCase8, mem_iteList, List.mem_append, List.mem_singleton,
        List.not_mem_nil] at hd
      aesop
  · intro hne
    refine ⟨⟨i, 4, 10, str "Entry/Addenda Count (" ++
      jsNumStr (jsParseInt (substr l 4 10)) ++
      str ") does not match actual count (" ++
      str (Nat.repr st.currentBatchEntryCount) ++ str ")", 1⟩, ?_, rfl, rfl⟩
    simp [processCase8, huk, hne]
  · rintro ⟨d, hd, ha, hb⟩
    simp only [huk, List.nil_append, List.mem_append] at hd
    rcases hd with hd | hd
    · rcases lengthDiags_span hd with h | h <;> omega
    · simp only [processCase8, mem_iteList, List.mem_append, List.mem_singleton,
        List.not_mem_nil] at hd
      aesop
  · intro hne
    have hc : (substr l 10 20 !=
        padStartZeros 10 (str (Nat.repr (st.currentBatchEntryHash % 10000000000)))) =
        true := bne_iff_ne.mpr hne
    refine ⟨⟨i, 10, 20, str "Entry Hash (" ++ substr l 10 20 ++
      str ") does not match calculated hash (" ++
      padStartZeros 10 (str (Nat.repr (st.currentBatchEntryHash % 10000000000))) ++
      str ")", 1⟩, ?_, rfl, rfl⟩
    simp [processCase8, huk, hc]
  · rintro ⟨d, hd, ha, hb⟩
    simp only [huk, List.nil_append, List.mem_append] at hd
    rcases hd with hd | hd
    · rcases lengthDiags_span hd with h | h <;> omega
    · simp only [processCase8, mem_iteList, List.mem_append, List.mem_singleton,
        List.not_mem_nil] at hd
      aesop
  · intro hne
    refine ⟨⟨i, 20, 32, str "Total Debit amount ($" ++
      jsDollar (jsParseInt (substr l 20 32)) ++
      str ") does not match actual ($" ++
      toFixed2Cents st.currentBatchDebitAmount ++ str ")", 1⟩, ?_, rfl, rfl⟩
    simp [processCase8, huk, hne]
  · rintro ⟨d, hd, ha, hb⟩
    simp only [huk, List.nil_append, List.mem_append] at hd
    rcases hd with hd | hd
    · rcases lengthDiags_span hd with h | h <;> omega
    · simp only [processCase8, mem_iteList, List.mem_append, List.mem_singleton,
        List.not_mem_nil] at hd
      aesop
  · intro hne
    refine ⟨⟨i, 32, 44, str "Total Credit amount ($" ++
      jsDollar (jsParseInt (substr l 32 44)) ++
      str ") does not match actual ($" ++
      toFixed2Cents st.currentBatchCreditAmount ++ str ")", 1⟩, ?_, rfl, rfl⟩
    simp [processCase8, huk, hne]

/-- Witness for `batchControl_without_header_checks`: a bare Batch Control
line with no prior Batch Header is checked against the empty snapshot. -/
theorem batchControl_without_header_checks_witness :
    initState.openBatch = false ∧
    ((⟨0, 0, 1,
        str "Batch Control (type 8) appears without a matching Batch Header (type 5)",
        1⟩ : AchDiagnostic) ∈ (processLine [] 0 initState (str "800")).2) ∧
    ((∃ d ∈ (processLine [] 0 initState (str "800")).2,
        d.start = 1 ∧ d.endPos = 4) ↔
      substr (str "800") 1 4 ≠ initState.currentBatchServiceClass) :=
  ⟨by decide,
   (batchControl_without_header_checks [] 0 initState (str "800")
     (by decide) (by decide)).1,
   (batchControl_without_header_checks [] 0 initState (str "800")
     (by decide) (by decide)).2.2.1⟩

/-! ### C9: schema layout coverage -/

/-- A descriptor list forms a gapless chain of non-empty half-open ranges
from `a` up to 94. -/
def chainedFrom : Nat → List FieldDefinition → Bool
  | a, [] => a == 94
  | a, f :: fs => (f.start == a) && (decide (a < f.stop)) && chainedFrom f.stop fs

lemma chainedFrom_bounds :
    ∀ (fs : List FieldDefinition) (a : Nat), chainedFrom a fs = true →
      ∀ f ∈ fs, a ≤ f.start ∧ f.start < f.stop ∧ f.stop ≤ 94 := by
  intro fs
  induction fs with
  | nil => intro a h f hf; simp at hf
  | cons g gs ih =>
    intro a h f hf
    rw [chainedFrom, Bool.and_eq_true, Bool.and_eq_true] at h
    obtain ⟨⟨hs, hlt⟩, hrest⟩ := h
    rw [beq_iff_eq] at hs
    rw [decide_eq_true_eq] at hlt
    rw [List.mem_cons] at hf
    rcases hf with rfl | hf
    · refine ⟨by omega, by omega, ?_⟩
      have : ∀ b gs2, chainedFrom b gs2 = true → b ≤ 94 := by
        intro b gs2
        induction gs2 generalizing b with
        | nil =>
          intro hb
          rw [chainedFrom, beq_iff_eq] at hb
          omega
        | cons x xs ihx =>
          intro hb
          rw [chainedFrom, Bool.and_eq_true, Bool.and_eq_true] at hb
          have := ihx x.stop hb.2
          have := hb.1.2
          rw [decide_eq_true_eq] at this
          omega
      have := this f.stop gs hrest
      omega
    · have := ih g.stop hrest f hf
      omega

lemma chainedFrom_find :
    ∀ (fs : List FieldDefinition) (a col : Nat), chainedFrom a fs = true →
      a ≤ col → col < 94 →
      ∃ f, fs.find? (fun f => decide (col ≥ f.start) && decide (col < f.stop)) = some f ∧
        f.start ≤ col ∧ col < f.stop := by
  intro fs
  induction fs with
  | nil =>
    intro a col h ha hcol
    rw [chainedFrom, beq_iff_eq] at h
    omega
  | cons g gs ih =>
    intro a col h ha hcol
    rw [chainedFrom, Bool.and_eq_true, Bool.and_eq_true] at h
    obtain ⟨⟨hs, hlt⟩, hrest⟩ := h
    rw [beq_iff_eq] at hs
    rw [decide_eq_true_eq] at hlt
    by_cases hc : col < g.stop
    · refine ⟨g, ?_, by omega, hc⟩
      rw [List.find?_cons_of_pos]
      simp only [Bool.and_eq_true, decide_eq_true_eq]
      exact ⟨by omega, hc⟩
    · obtain ⟨f, hfind, hf1, hf2⟩ := ih g.stop col hrest (by omega) hcol
      refine ⟨f, ?_, hf1, hf2⟩
      rw [List.find?_cons_of_neg, hfind]
      simp only [Bool.and_eq_true, decide_eq_true_eq, not_and]
      intro
      omega

lemma chainedFrom_find_none :
    ∀ (fs : List FieldDefinition) (a col : Nat), chainedFrom a fs = true →
      94 ≤ col →
      fs.find? (fun f => decide (col ≥ f.start) && decide (col < f.stop)) = none := by
  intro fs a col h hcol
  rw [List.find?_eq_none]
  intro f hf
  have := chainedFrom_bounds fs a h f hf
  simp only [Bool.and_eq_true, decide_eq_true_eq, not_and]
  intro
  omega

lemma chainedFrom_unique :
    ∀ (fs : List FieldDefinition) (a col : Nat), chainedFrom a fs = true →
      ∀ f ∈ fs, ∀ g ∈ fs, f.start ≤ col → col < f.stop → g.start ≤ col →
        col < g.stop → g = f := by
  intro fs
  induction fs with
  | nil => intro a col h f hf; simp at hf
  | cons x xs ih =>
    intro a col h f hf g hg hf1 hf2 hg1 hg2
    rw [chainedFrom, Bool.and_eq_true, Bool.and_eq_true] at h
    obtain ⟨⟨hs, hlt⟩, hrest⟩ := h
    rw [beq_iff_eq] at hs
    rw [decide_eq_true_eq] at hlt
    rw [List.mem_cons] at hf
    rw [List.mem_cons] at hg
    rcases hf with rfl | hf
    · rcases hg with rfl | hg
      · rfl
      · have := chainedFrom_bounds xs f.stop hrest g hg
        omega
    · rcases hg with rfl | hg
      · have := chainedFrom_bounds xs g.stop hrest f hf
        omega
      · exact ih x.stop col hrest f hf g hg hf1 hf2 hg1 hg2

/-- Disjointness of a chained layout in list order. -/
lemma chainedFrom_pairwise :
    ∀ (fs : List FieldDefinition) (a : Nat), chainedFrom a fs = true →
      fs.Pairwise (fun f g => f.stop ≤ g.start) := by
  intro fs
  induction fs with
  | nil => intro a h; exact List.Pairwise.nil
  | cons x xs ih =>
    intro a h
    rw [chainedFrom, Bool.and_eq_true, Bool.and_eq_true] at h
    obtain ⟨⟨hs, hlt⟩, hrest⟩ := h
    refine List.Pairwise.cons ?_ (ih x.stop hrest)
    intro g hg
    exact (chainedFrom_bounds xs x.stop hrest g hg).1

/-- The generic consequence of a chained layout for the two lookup
functions. -/
lemma coverage_of_chained {L : List FieldDefinition} {rt : Str}
    {line sec : Option Str}
    (hL : getFieldsForRecord rt line sec = some L) (hch : chainedFrom 0 L = true) :
    ∃ fs, getFieldsForRecord rt line sec = some fs ∧
      fs.Pairwise (fun f g => f.stop ≤ g.start) ∧
      (∀ f ∈ fs, f.start < f.stop ∧ f.stop ≤ 94) ∧
      (∀ col, col < 94 → ∃ f, getFieldAtPosition rt col line sec = some f ∧
        f ∈ fs ∧ f.start ≤ col ∧ col < f.stop ∧
        ∀ g ∈ fs, g.start ≤ col → col < g.stop → g = f) ∧
      (∀ col, 94 ≤ col → getFieldAtPosition rt col line sec = none) := by
  refine ⟨L, hL, chainedFrom_pairwise L 0 hch, ?_, ?_, ?_⟩
  · intro f hf
    have := chainedFrom_bounds L 0 hch f hf
    exact ⟨this.2.1, this.2.2⟩
  · intro col hcol
    obtain ⟨f, hfind, h1, h2⟩ := chainedFrom_find L 0 col hch (Nat.zero_le _) hcol
    refine ⟨f, ?_, List.mem_of_find?_eq_some hfind, h1, h2, ?_⟩
    · rw [getFieldAtPosition, hL]
      exact hfind
    · intro g hg hg1 hg2
      exact chainedFrom_unique L 0 col hch f (List.mem_of_find?_eq_some hfind) g hg
        h1 h2 hg1 hg2
  · intro col hcol
    rw [getFieldAtPosition, hL]
    exact chainedFrom_find_none L 0 col hch hcol

/-- The IAT addenda lookup with its domestic fallback always lands on a
chained table. -/
lemma addenda_or_fallback (k : Str) :
    ∃ T, (addendaIATFields k).or (recordFields (str "7")) = some T ∧
      chainedFrom 0 T = true := by
  rw [addendaIATFields]
  split_ifs <;> exact ⟨_, rfl, by decide⟩

/-- C9: for each of the six record types, any SEC code and any line text,
the selected descriptor list consists of non-overlapping ranges exactly
covering `[0,94)`: every column below 94 lies in a unique descriptor, which
is the one `getFieldAtPosition` returns, and columns at or beyond 94 return
none. -/
theorem schema_fields_cover (rt : Str)
    (hrt : rt = str "1" ∨ rt = str "5" ∨ rt = str "6" ∨ rt = str "7" ∨
      rt = str "8" ∨ rt = str "9")
    (line : Option Str) (sec : Option Str) :
    ∃ fs, getFieldsForRecord rt line sec = some fs ∧
      fs.Pairwise (fun f g => f.stop ≤ g.start) ∧
      (∀ f ∈ fs, f.start < f.stop ∧ f.stop ≤ 94) ∧
      (∀ col, col < 94 → ∃ f, getFieldAtPosition rt col line sec = some f ∧
        f ∈ fs ∧ f.start ≤ col ∧ col < f.stop ∧
        ∀ g ∈ fs, g.start ≤ col → col < g.stop → g = f) ∧
      (∀ col, 94 ≤ col → getFieldAtPosition rt col line sec = none) := by
  by_cases hsec : sec = some (str "IAT")
  · subst hsec
    rcases hrt with rfl | rfl | rfl | rfl | rfl | rfl
    · exact coverage_of_chained rfl (by decide)
    · exact coverage_of_chained rfl (by decide)
    · exact coverage_of_chained rfl (by decide)
    · rcases line with _ | l
      · exact coverage_of_chained rfl (by decide)
      · by_cases hlen : 3 ≤ l.length
        · obtain ⟨T, hT, hch⟩ := addenda_or_fallback (substr l 1 3)
          refine coverage_of_chained ?_ hch
          rw [getFieldsForRecord]
          simp [hlen, hT]
          rw [if_neg (show ¬(str "7" = str "5" ∨ str "7" = str "6") by decide)]
        · have hL : getFieldsForRecord (str "7") (some l) (some (str "IAT")) =
              recordFields (str "7") := by
            rw [getFieldsForRecord]
            simp [hlen]
            rw [if_neg (show ¬(str "7" = str "5" ∨ str "7" = str "6") by decide)]
          exact coverage_of_chained (by rw [hL]; rfl) (by decide)
    · exact coverage_of_chained rfl (by decide)
    · exact coverage_of_chained rfl (by decide)
  · have hsec' : (sec == some (str "IAT")) = false := by
      rw [beq_eq_false_iff_ne]
      exact hsec
    have hfb : ∀ rt2 : Str, getFieldsForRecord rt2 line sec = recordFields rt2 := by
      intro rt2
      rw [getFieldsForRecord.eq_def]
      simp only [hsec', Bool.false_eq_true, if_false]
    rcases hrt with rfl | rfl | rfl | rfl | rfl | rfl <;>
      exact coverage_of_chained (by rw [hfb]; rfl) (by decide)

/-- Witness for `schema_fields_cover`: the Entry Detail layout at column 30
is the Amount field. -/
theorem schema_fields_cover_witness :
    (str "6" = str "1" ∨ str "6" = str "5" ∨ str "6" = str "6" ∨
      str "6" = str "7" ∨ str "6" = str "8" ∨ str "6" = str "9") ∧
    ∃ fs, getFieldsForRecord (str "6") none none = some fs ∧
      fs.Pairwise (fun f g => f.stop ≤ g.start) ∧
      (∀ f ∈ fs, f.start < f.stop ∧ f.stop ≤ 94) ∧
      (∀ col, col < 94 → ∃ f, getFieldAtPosition (str "6") col none none = some f ∧
        f ∈ fs ∧ f.start ≤ col ∧ col < f.stop ∧
        ∀ g ∈ fs, g.start ≤ col → col < g.stop → g = f) ∧
      (∀ col, 94 ≤ col → getFieldAtPosition (str "6") col none none = none) :=
  ⟨Or.inr (Or.inr (Or.inl rfl)),
   schema_fields_cover (str "6") (Or.inr (Or.inr (Or.inl rfl))) none none⟩

/-! ### Loop membership decomposition -/

/-- A state-independent per-line diagnostic is in the loop output. -/
lemma parseAchGo_mem_at (lines : List Str) (D : AchDiagnostic) (i : Nat) (li : Str)
    (hD : ∀ st', D ∈ (processLine lines i st' li).2) :
    ∀ (ls : List Str) (i0 : Nat) (st : ParseState),
      ls.get? (i - i0) = some li → i0 ≤ i →
      D ∈ (parseAchGo lines i0 st ls).2 := by
  intro ls
  induction ls with
  | nil => intro i0 st hget _; simp at hget
  | cons l rest ih =>
    intro i0 st hget hle
    by_cases hi : i = i0
    · subst hi
      simp only [Nat.sub_self, List.get?_cons_zero, Option.some_inj] at hget
      subst hget
      simp only [parseAchGo, List.mem_append]
      exact Or.inl (hD st)
    · have hlt : i0 + 1 ≤ i := by omega
      have hget' : rest.get? (i - (i0 + 1)) = some li := by
        have : i - i0 = (i - (i0 + 1)) + 1 := by omega
        rw [this] at hget
        simpa using hget
      simp only [parseAchGo, List.mem_append]
      exact Or.inr (ih (i0 + 1) (processLine lines i0 st l).1 hget' hlt)

/-- Every loop diagnostic comes from scanning some line of the list. -/
lemma parseAchGo_mem_elim (lines : List Str) :
    ∀ (ls : List Str) (i0 : Nat) (st : ParseState) (d : AchDiagnostic),
      d ∈ (parseAchGo lines i0 st ls).2 →
      ∃ j lj st', ls.get? j = some lj ∧ d ∈ (processLine lines (i0 + j) st' lj).2 := by
  intro ls
  induction ls with
  | nil => intro i0 st d hd; simp [parseAchGo] at hd
  | cons l rest ih =>
    intro i0 st d hd
    simp only [parseAchGo, List.mem_append] at hd
    rcases hd with hd | hd
    · exact ⟨0, l, st, rfl, by simpa using hd⟩
    · obtain ⟨j, lj, st', hget, hmem⟩ := ih (i0 + 1) (processLine lines i0 st l).1 d hd
      refine ⟨j + 1, lj, st', by simpa using hget, ?_⟩
      have : i0 + 1 + j = i0 + (j + 1) := by omega
      rwa [this] at hmem

/-- Scanning a blank line emits exactly the blank-line diagnostic when it is
not the last line, and nothing otherwise. -/
lemma processLine_blank (lines : List Str) (i : Nat) (st : ParseState) :
    processLine lines i st [] =
      (st, if i + 1 < lines.length then
        [⟨i, 0, 1, str "Unexpected blank line in ACH file", 2⟩] else []) := by
  rw [processLine]
  simp

/-! ### C8: blank-line rule -/

/-- Counterexample to C8 as stated: in "1\n\n" the blank line at index 1 is
not before the last non-blank line (index 0), yet it receives a diagnostic
(at severity 2, not error severity). -/
theorem blank_line_rule_counterexample :
    (splitLines (str "1\n\n")).get? 1 = some [] ∧
    lastNonEmptyIndex (splitLines (str "1\n\n")) = some 0 ∧
    (parseAch (str "1\n\n")).any (fun d => d.line == 1 && d.severity == 2) = true := by
  decide

/-- C8 as amended: a blank line yields the severity-2 "Unexpected blank
line" diagnostic if it is not the last line of the CR/LF split, and a blank
last line (e.g. from a final newline) yields no diagnostic at its index at
all. -/
theorem blank_line_diag_iff_not_last (text : Str) (i : Nat)
    (hblank : (splitLines text).get? i = some []) :
    (i + 1 < (splitLines text).length →
      (⟨i, 0, 1, str "Unexpected blank line in ACH file", 2⟩ : AchDiagnostic) ∈
        parseAch text) ∧
    (¬ i + 1 < (splitLines text).length →
      ∀ d ∈ parseAch text, d.line ≠ i) := by
  constructor
  · intro hlt
    have hD : ∀ st', (⟨i, 0, 1, str "Unexpected blank line in ACH file", 2⟩ :
        AchDiagnostic) ∈ (processLine (splitLines text) i st' []).2 := by
      intro st'
      rw [processLine_blank]
      simp [hlt]
    have hmem := parseAchGo_mem_at (splitLines text) _ i [] hD (splitLines text) 0
      initState (by simpa using hblank) (Nat.zero_le _)
    simp only [parseAch, List.mem_append]
    exact Or.inl hmem
  · intro hnlt d hd hdi
    simp only [parseAch, List.mem_append] at hd
    rcases hd with hd | hd
    · obtain ⟨j, lj, st', hget, hmem⟩ := parseAchGo_mem_elim _ _ 0 _ d hd
      have hj := processLine_line_eq hmem
      have hji : j = i := by omega
      subst hji
      have hlj : lj = [] := by
        rw [hget] at hblank
        simpa using hblank
      subst hlj
      rw [show 0 + j = j by omega, processLine_blank] at hmem
      rw [if_neg hnlt] at hmem
      simp at hmem
    · rw [finalDiags] at hd
      split at hd
      · next hany =>
        simp only [List.mem_append] at hd
        rcases hd with hd | hd
        · split at hd
          · simp at hd
          · obtain rfl := List.mem_singleton.mp hd
            have hi0 : i = 0 := by simpa using hdi.symm
            subst hi0
            rcases hlines : splitLines text with _ | ⟨a, rest⟩
            · rw [hlines] at hblank; simp at hblank
            · rw [hlines] at hblank hnlt hany
              simp only [List.get?_cons_zero, Option.some_inj] at hblank
              subst hblank
              have : rest = [] := by
                rcases rest with _ | ⟨b, t⟩
                · rfl
                · exfalso; simp at hnlt
              subst this
              simp at hany
        · split at hd
          · next k hmatch =>
            split at hd
            · simp at hd
            · obtain rfl := List.mem_singleton.mp hd
              have hki : k = i := by simpa using hdi
              subst hki
              have hspec := lastNonEmptyIndex_spec _ _ hmatch
              have : (splitLines text).getD k [] = [] := by
                rw [List.getD_eq_getElem?_getD, ← List.get?_eq_getElem?, hblank]
                rfl
              rw [this] at hspec
              simp [trimStr_nil] at hspec
          · simp at hd
      · simp at hd

/-- Witness for `blank_line_diag_iff_not_last` on "1\n\n": line 1 is blank
and not last, so its diagnostic is present. -/
theorem blank_line_diag_iff_not_last_witness :
    (splitLines (str "1\n\n")).get? 1 = some [] ∧
    1 + 1 < (splitLines (str "1\n\n")).length ∧
    (⟨1, 0, 1, str "Unexpected blank line in ACH file", 2⟩ : AchDiagnostic) ∈
      parseAch (str "1\n\n") :=
  ⟨by decide, by decide,
   (blank_line_diag_iff_not_last (str "1\n\n") 1 (by decide)).1 (by decide)⟩

/-! ### C7: missing File Control post-pass check -/

/-- Counterexample to C7 as stated: a file whose only line is a 94-character
all-9 padding row. Its record kind is Padding (not FileControl), yet
`parseAch` emits no "Missing File Control" diagnostic, because the check
accepts any line whose first character is the digit 9. -/
theorem missing_file_control_counterexample :
    isPaddingRow ((splitLines (List.replicate 94 '9')).getD 0 []) = true ∧
    lastNonEmptyIndex (splitLines (List.replicate 94 '9')) = some 0 ∧
    (parseAch (List.replicate 94 '9')).all
      (fun d => !(d.message == str "Missing File Control (type 9) record")) = true := by
  decide

/-- C7 as amended: after the scan, the post-pass appends the "Missing File
Control" diagnostic referencing the last non-blank line exactly when that
line's first character is not the digit '9' — so genuine File Control
records and all-9 padding rows both count as acceptable file enders. -/
theorem missing_file_control_iff_last_not_nine (text : Str) (k : Nat)
    (hk : lastNonEmptyIndex (splitLines text) = some k) :
    parseAch text =
      (parseAchGo (splitLines text) 0 initState (splitLines text)).2 ++
      finalDiags (splitLines text)
        (parseAchGo (splitLines text) 0 initState (splitLines text)).1 ∧
    ((((splitLines text).getD k []).headD ' ') ≠ '9' →
      (⟨k, 0, 1, str "Missing File Control (type 9) record", 1⟩ : AchDiagnostic) ∈
        finalDiags (splitLines text)
          (parseAchGo (splitLines text) 0 initState (splitLines text)).1) ∧
    ((((splitLines text).getD k []).headD ' ') = '9' →
      ∀ d ∈ finalDiags (splitLines text)
          (parseAchGo (splitLines text) 0 initState (splitLines text)).1,
        d.message ≠ str "Missing File Control (type 9) record") := by
  refine ⟨rfl, ?_, ?_⟩
  · intro hne
    rw [finalDiags, if_pos (any_of_lastNonEmptyIndex hk)]
    simp only [List.mem_append, hk]
    right
    rw [if_neg]
    · exact List.mem_singleton.mpr rfl
    · simp only [beq_iff_eq]
      exact hne
  · intro h9 d hd
    rw [finalDiags] at hd
    split at hd
    · simp only [List.mem_append, hk] at hd
      rcases hd with hd | hd
      · split at hd
        · simp at hd
        · obtain rfl := List.mem_singleton.mp hd
          decide
      · rw [if_pos (by simpa using h9)] at hd
        simp at hd
    · simp at hd

/-- Witness for `missing_file_control_iff_last_not_nine` on the single-line
file "1": its last non-blank line starts with '1', so the post-pass appends
the missing File Control diagnostic. -/
theorem missing_file_control_iff_last_not_nine_witness :
    lastNonEmptyIndex (splitLines (str "1")) = some 0 ∧
    (((splitLines (str "1")).getD 0 []).headD ' ') ≠ '9' ∧
    (⟨0, 0, 1, str "Missing File Control (type 9) record", 1⟩ : AchDiagnostic) ∈
      finalDiags (splitLines (str "1"))
        (parseAchGo (splitLines (str "1")) 0 initState (splitLines (str "1"))).1 :=
  ⟨by decide, by decide,
   (missing_file_control_iff_last_not_nine (str "1") 0 (by decide)).2.1 (by decide)⟩

/-! ### C5: the record-length rule -/

/-- Prefix test that recurses on the pattern, so it evaluates as soon as the
message's leading literal part is known. -/
def startsWithStr (p m : Str) : Bool :=
  match p with
  | [] => true
  | pc :: ps =>
    match m with
    | [] => false
    | mc :: ms => (pc == mc) && startsWithStr ps ms

/-- A diagnostic message is a length diagnostic iff it starts with
"Record length ". -/
def isLengthMsg (m : Str) : Bool := startsWithStr (str "Record length ") m

lemma ilm_short (x : Str) :
    isLengthMsg (str "Record length " ++ x) = true := rfl

lemma ilm_multiple : isLengthMsg (str "Multiple File Header records (type 1) found") = false := rfl

lemma ilm_first : isLengthMsg (str "File Header (type 1) should be the first record") = false := rfl

lemma ilm_priority (x : Str) :
    isLengthMsg (str "Priority Code should be \x2701\x27, found \x27" ++ x) = false := rfl

lemma ilm_dest : isLengthMsg (str "Immediate Destination is required") = false := rfl

lemma ilm_orig : isLengthMsg (str "Immediate Origin is required") = false := rfl

lemma ilm_fdate : isLengthMsg (str "File Creation Date must be YYMMDD format") = false := rfl

lemma ilm_ftime : isLengthMsg (str "File Creation Time should be HHMM format") = false := rfl

lemma ilm_rsize : isLengthMsg (str "Record Size must be 094") = false := rfl

lemma ilm_blocking : isLengthMsg (str "Blocking Factor must be 10") = false := rfl

lemma ilm_format : isLengthMsg (str "Format Code must be 1") = false := rfl

lemma ilm_bh_before : isLengthMsg (str "Batch Header (type 5) appears before File Header (type 1)") = false := rfl

lemma ilm_nested : isLengthMsg (str "Nested Batch Header (type 5) without closing previous batch (type 8)") = false := rfl

lemma ilm_svc (x : Str) :
    isLengthMsg (str "Invalid Service Class Code for " ++ x) = false := rfl

lemma ilm_iatind : isLengthMsg (str "IAT batches must have \"IAT\" in positions 5-7") = false := rfl

lemma ilm_effdate : isLengthMsg (str "Effective Entry Date must be YYMMDD format") = false := rfl

lemma ilm_osc : isLengthMsg (str "Originator Status Code must be 1") = false := rfl

lemma ilm_ed_outside : isLengthMsg (str "Entry Detail (type 6) appears outside of an open batch") = false := rfl

lemma ilm_amount : isLengthMsg (str "Amount must be numeric") = false := rfl

lemma ilm_checkdigit (x : Str) :
    isLengthMsg (str "Invalid Check Digit. Expected " ++ x) = false := rfl

lemma ilm_rdfi : isLengthMsg (str "Receiving DFI Identification must be 8 digits") = false := rfl

lemma ilm_ari1 : isLengthMsg (str "Addenda Record Indicator must be 1 for IAT entries") = false := rfl

lemma ilm_iatcount (x : Str) :
    isLengthMsg (str "IAT entries must have at least 07 addenda records (found " ++ x) = false := rfl

lemma ilm_ari01 : isLengthMsg (str "Addenda Record Indicator must be 0 or 1") = false := rfl

lemma ilm_add_outside : isLengthMsg (str "Addenda (type 7) appears outside of an open batch") = false := rfl

lemma ilm_bc_nomatch : isLengthMsg (str "Batch Control (type 8) appears without a matching Batch Header (type 5)") = false := rfl

lemma ilm_svc_match (x : Str) :
    isLengthMsg (str "Service Class Code matches Batch Header (" ++ x) = false := rfl

lemma ilm_cid_match (x : Str) :
    isLengthMsg (str "Company Identification matches Batch Header (" ++ x) = false := rfl

lemma ilm_odfi_match (x : Str) :
    isLengthMsg (str "Originating DFI Identification matches Batch Header (" ++ x) = false := rfl

lemma ilm_bn_match (x : Str) :
    isLengthMsg (str "Batch Number matches Batch Header (" ++ x) = false := rfl

lemma ilm_eac (x : Str) :
    isLengthMsg (str "Entry/Addenda Count (" ++ x) = false := rfl

lemma ilm_ehash (x : Str) :
    isLengthMsg (str "Entry Hash (" ++ x) = false := rfl

lemma ilm_tdebit (x : Str) :
    isLengthMsg (str "Total Debit amount ($" ++ x) = false := rfl

lemma ilm_tcredit (x : Str) :
    isLengthMsg (str "Total Credit amount ($" ++ x) = false := rfl

lemma ilm_fc_before : isLengthMsg (str "File Control (type 9) appears before File Header") = false := rfl

lemma ilm_fc_open : isLengthMsg (str "File Control (type 9) appears while a batch is still open") = false := rfl

lemma ilm_fc_final : isLengthMsg (str "File Control should be the final record (excluding padding)") = false := rfl

lemma ilm_bcount (x : Str) :
    isLengthMsg (str "Batch Count (" ++ x) = false := rfl

lemma ilm_teac (x : Str) :
    isLengthMsg (str "Total Entry/Addenda Count (" ++ x) = false := rfl

lemma ilm_fehash (x : Str) :
    isLengthMsg (str "File Entry Hash (" ++ x) = false := rfl

lemma ilm_fdebit (x : Str) :
    isLengthMsg (str "File Total Debit amount ($" ++ x) = false := rfl

lemma ilm_fcredit (x : Str) :
    isLengthMsg (str "File Total Credit amount ($" ++ x) = false := rfl

lemma ilm_bcnt (x : Str) :
    isLengthMsg (str "Block Count (" ++ x) = false := rfl

lemma ilm_unknown (x : Str) :
    isLengthMsg (str "Unknown record type \x27" ++ x) = false := rfl

lemma ilm_blank : isLengthMsg (str "Unexpected blank line in ACH file") = false := rfl

lemma ilm_mfh : isLengthMsg (str "Missing File Header (type 1) record") = false := rfl

lemma ilm_mfc : isLengthMsg (str "Missing File Control (type 9) record") = false := rfl

lemma countP_iteCons {α : Type} (p : α → Bool) (b : Bool) (x : α) :
    (if b then [x] else []).countP p = if b then (if p x then 1 else 0) else 0 := by
  cases b <;> simp [List.countP_cons]

lemma countP_iteList {α : Type} (p : α → Bool) (b : Bool) (l1 l2 : List α) :
    (if b then l1 else l2).countP p = if b then l1.countP p else l2.countP p := by
  cases b <;> simp

lemma processCase1_countLength (st : ParseState) (i : Nat) (line : Str) :
    ((processCase1 st i line).2).countP
      (fun d => d.line == i && isLengthMsg d.message) = 0 := by
  simp only [processCase1, List.countP_append, countP_iteList, countP_iteCons,
    List.countP_cons, List.countP_nil, List.append_assoc, beq_self_eq_true,
    Bool.true_and, ilm_multiple, ilm_first, ilm_priority, ilm_dest, ilm_orig,
    ilm_fdate, ilm_ftime, ilm_rsize, ilm_blocking, ilm_format]
  simp

lemma processCase5_countLength (st : ParseState) (i : Nat) (line : Str) :
    ((processCase5 st i line).2).countP
      (fun d => d.line == i && isLengthMsg d.message) = 0 := by
  simp only [processCase5, List.countP_append, countP_iteList, countP_iteCons,
    List.countP_cons, List.countP_nil, List.append_assoc, beq_self_eq_true,
    Bool.true_and, ilm_bh_before, ilm_nested, ilm_svc, ilm_iatind, ilm_effdate,
    ilm_osc]
  simp

lemma processCase6_countLength (st : ParseState) (i : Nat) (line : Str) :
    ((processCase6 st i line).2).countP
      (fun d => d.line == i && isLengthMsg d.message) = 0 := by
  simp only [processCase6, List.countP_append, countP_iteList, countP_iteCons,
    List.countP_cons, List.countP_nil, List.append_assoc, beq_self_eq_true,
    Bool.true_and, ilm_ed_outside, ilm_amount, ilm_checkdigit, ilm_rdfi, ilm_ari1,
    ilm_iatcount, ilm_ari01]
  simp

lemma processCase7_countLength (st : ParseState) (i : Nat) (line : Str) :
    ((processCase7 st i line).2).countP
      (fun d => d.line == i && isLengthMsg d.message) = 0 := by
  simp only [processCase7, countP_iteList, countP_iteCons, List.countP_cons,
    List.countP_nil, beq_self_eq_true, Bool.true_and, ilm_add_outside]
  simp

lemma processCase8_countLength (st : ParseState) (i : Nat) (line : Str) :
    ((processCase8 st i line).2).countP
      (fun d => d.line == i && isLengthMsg d.message) = 0 := by
  simp only [processCase8, List.countP_append, countP_iteList, countP_iteCons,
    List.countP_cons, List.countP_nil, List.append_assoc, beq_self_eq_true,
    Bool.true_and, ilm_bc_nomatch, ilm_svc_match, ilm_cid_match, ilm_odfi_match,
    ilm_bn_match, ilm_eac, ilm_ehash, ilm_tdebit, ilm_tcredit]
  simp

lemma processCase9_countLength (lines : List Str) (st : ParseState) (i : Nat)
    (line : Str) :
    ((processCase9 lines st i line).2).countP
      (fun d => d.line == i && isLengthMsg d.message) = 0 := by
  simp only [processCase9, List.countP_append, countP_iteList, countP_iteCons,
    List.countP_cons, List.countP_nil, List.append_assoc, beq_self_eq_true,
    Bool.true_and, ilm_fc_before, ilm_fc_open, ilm_fc_final, ilm_bcount, ilm_teac,
    ilm_fehash, ilm_fdebit, ilm_fcredit, ilm_bcnt]
  simp

lemma unknownTypeDiags_countLength (i : Nat) (line : Str) :
    (unknownTypeDiags i line).countP
      (fun d => d.line == i && isLengthMsg d.message) = 0 := by
  have hu : isLengthMsg (str "Unknown record type \x27" ++
      ((List.head? line).getD ' ') :: str "\x27. Expected 1, 5, 6, 7, 8, or 9") =
      false := rfl
  simp only [unknownTypeDiags, countP_iteList, countP_iteCons, List.countP_cons,
    List.countP_nil, beq_self_eq_true, Bool.true_and]
  simp [hu]

lemma lengthDiags_countLength (i : Nat) (line : Str) :
    (lengthDiags i line).countP (fun d => d.line == i && isLengthMsg d.message) =
      if line.length == 94 then 0 else 1 := by
  rw [lengthDiags]
  split
  · next h =>
    have h94 : (line.length == 94) = false := by
      simp only [beq_eq_false_iff_ne]
      omega
    simp [h94, List.countP_cons, ilm_short]
  · split
    · next h h2 =>
      have h94 : (line.length == 94) = false := by
        simp only [beq_eq_false_iff_ne]
        omega
      simp [h94, List.countP_cons, ilm_short]
    · next h h2 =>
      have h94 : (line.length == 94) = true := by
        simp only [beq_iff_eq]
        omega
      simp [h94]

lemma finalDiags_countLength (lines : List Str) (st : ParseState) (i : Nat) :
    (finalDiags lines st).countP (fun d => d.line == i && isLengthMsg d.message) = 0 := by
  rw [finalDiags]
  split
  · rw [List.countP_append]
    have h1 : (if st.seenFileHeader then ([] : List AchDiagnostic)
        else [⟨0, 0, 1, str "Missing File Header (type 1) record", 1⟩]).countP
        (fun d => d.line == i && isLengthMsg d.message) = 0 := by
      split
      · simp
      · simp [List.countP_cons, ilm_mfh]
    rw [h1]
    split
    · split
      · simp
      · simp [List.countP_cons, ilm_mfc]
    · simp
  · simp

/-- Dispatching on the record type contributes no length diagnostics. -/
lemma dispatch_countLength (lines : List Str) (st : ParseState) (i : Nat) (li : Str) :
    ((if li.headD ' ' == '1' then processCase1 st i li
      else if li.headD ' ' == '5' then processCase5 st i li
      else if li.headD ' ' == '6' then processCase6 st i li
      else if li.headD ' ' == '7' then processCase7 st i li
      else if li.headD ' ' == '8' then processCase8 st i li
      else if li.headD ' ' == '9' then processCase9 lines st i li
      else (st, [])).2).countP (fun d => d.line == i && isLengthMsg d.message) = 0 := by
  split
  · exact processCase1_countLength ..
  · split
    · exact processCase5_countLength ..
    · split
      · exact processCase6_countLength ..
      · split
        · exact processCase7_countLength ..
        · split
          · exact processCase8_countLength ..
          · split
            · exact processCase9_countLength ..
            · simp

/-- `processLine` on a non-blank, non-padding line reduces to the unknown
and length checks plus the record-type dispatch. -/
lemma processLine_eq_nonblank {lines : List Str} {i : Nat} {st : ParseState}
    {li : Str} (hne : li ≠ []) (hpad : isPaddingRow li = false) :
    processLine lines i st li =
      ((if li.headD ' ' == '1' then processCase1 st i li
        else if li.headD ' ' == '5' then processCase5 st i li
        else if li.headD ' ' == '6' then processCase6 st i li
        else if li.headD ' ' == '7' then processCase7 st i li
        else if li.headD ' ' == '8' then processCase8 st i li
        else if li.headD ' ' == '9' then processCase9 lines st i li
        else (st, [])).1,
       unknownTypeDiags i li ++ lengthDiags i li ++
       (if li.headD ' ' == '1' then processCase1 st i li
        else if li.headD ' ' == '5' then processCase5 st i li
        else if li.headD ' ' == '6' then processCase6 st i li
        else if li.headD ' ' == '7' then processCase7 st i li
        else if li.headD ' ' == '8' then processCase8 st i li
        else if li.headD ' ' == '9' then processCase9 lines st i li
        else (st, [])).2) := by
  rw [processLine]
  rw [if_neg (by simpa using hne), if_neg (by simp [hpad])]

/-- The per-line length-diagnostic count of the scan step. -/
lemma processLine_countLength (lines : List Str) (i : Nat) (st : ParseState)
    (li : Str) (hne : li ≠ []) (hpad : isPaddingRow li = false) :
    ((processLine lines i st li).2).countP
      (fun d => d.line == i && isLengthMsg d.message) =
      if li.length == 94 then 0 else 1 := by
  rw [processLine_eq_nonblank hne hpad]
  simp only [List.countP_append, unknownTypeDiags_countLength,
    lengthDiags_countLength, dispatch_countLength, Nat.add_zero, Nat.zero_add]

/-- Only the scan step of line `i` contributes to the count at index `i`. -/
lemma parseAchGo_countLength (lines : List Str) (i : Nat) (li : Str) (c : Nat)
    (hat : ∀ st', ((processLine lines i st' li).2).countP
      (fun d => d.line == i && isLengthMsg d.message) = c) :
    ∀ (ls : List Str) (i0 : Nat) (st : ParseState),
      ls.get? (i - i0) = some li → i0 ≤ i →
      ((parseAchGo lines i0 st ls).2).countP
        (fun d => d.line == i && isLengthMsg d.message) = c := by
  intro ls
  induction ls with
  | nil => intro i0 st hget _; simp at hget
  | cons l rest ih =>
    intro i0 st hget hle
    simp only [parseAchGo, List.countP_append]
    by_cases hi : i = i0
    · subst hi
      have hl : l = li := by simpa using hget
      rw [hl, hat st]
      have hrest : ((parseAchGo lines (i + 1) (processLine lines i st li).1 rest).2).countP
          (fun d => d.line == i && isLengthMsg d.message) = 0 := by
        rw [List.countP_eq_zero]
        intro d hd
        have := (parseAchGo_line_bound lines rest (i + 1)
          (processLine lines i st li).1 d hd).1
        simp only [Bool.and_eq_true, beq_iff_eq]
        rintro ⟨rfl, -⟩
        omega
      rw [hrest]
      omega
    · have hfst : ((processLine lines i0 st l).2).countP
          (fun d => d.line == i && isLengthMsg d.message) = 0 := by
        rw [List.countP_eq_zero]
        intro d hd
        have := processLine_line_eq hd
        simp only [Bool.and_eq_true, beq_iff_eq]
        rintro ⟨rfl, -⟩
        omega
      rw [hfst]
      have hget' : rest.get? (i - (i0 + 1)) = some li := by
        have heq : i - i0 = (i - (i0 + 1)) + 1 := by omega
        rw [heq] at hget
        simpa using hget
      rw [ih (i0 + 1) (processLine lines i0 st l).1 hget' (by omega)]
      omega

/-- C5: every non-blank, non-padding line of length ≠ 94 receives exactly one
length diagnostic from `parseAch` — the severity-1 error starting at column 0
when short, the severity-3 hint spanning columns 94 to the line length when
long — and a line of length exactly 94 receives none. -/
theorem record_length_rule (text : Str) (i : Nat) (li : Str)
    (hget : (splitLines text).get? i = some li) (hne : li ≠ [])
    (hpad : isPaddingRow li = false) :
    ((parseAch text).countP (fun d => d.line == i && isLengthMsg d.message) =
      if li.length == 94 then 0 else 1) ∧
    (li.length < 94 →
      (⟨i, 0, max 1 li.length, str "Record length " ++ str (Nat.repr li.length) ++
        str " is less than required 94 characters", 1⟩ : AchDiagnostic) ∈
        parseAch text) ∧
    (94 < li.length →
      (⟨i, 94, li.length, str "Record length " ++ str (Nat.repr li.length) ++
        str " exceeds 94 characters (extra trailing data)", 3⟩ : AchDiagnostic) ∈
        parseAch text) := by
  have hat : ∀ st', ((processLine (splitLines text) i st' li).2).countP
      (fun d => d.line == i && isLengthMsg d.message) =
      if li.length == 94 then 0 else 1 :=
    fun st' => processLine_countLength (splitLines text) i st' li hne hpad
  refine ⟨?_, ?_, ?_⟩
  · simp only [parseAch, List.countP_append]
    rw [parseAchGo_countLength (splitLines text) i li _ hat (splitLines text) 0
      initState (by simpa using hget) (Nat.zero_le _)]
    rw [finalDiags_countLength, Nat.add_zero]
  · intro hlt
    have hD : ∀ st', (⟨i, 0, max 1 li.length, str "Record length " ++
        str (Nat.repr li.length) ++ str " is less than required 94 characters", 1⟩ :
        AchDiagnostic) ∈ (processLine (splitLines text) i st' li).2 := by
      intro st'
      rw [processLine_eq_nonblank hne hpad]
      have hmem : (⟨i, 0, max 1 li.length, str "Record length " ++
          str (Nat.repr li.length) ++ str " is less than required 94 characters", 1⟩ :
          AchDiagnostic) ∈ lengthDiags i li := by
        rw [lengthDiags, if_pos hlt]
        exact List.mem_singleton.mpr rfl
      simp only [List.mem_append]
      exact Or.inl (Or.inr hmem)
    have hgo := parseAchGo_mem_at (splitLines text) _ i li hD (splitLines text) 0
      initState (by simpa using hget) (Nat.zero_le _)
    simp only [parseAch, List.mem_append]
    exact Or.inl hgo
  · intro hgt
    have hD : ∀ st', (⟨i, 94, li.length, str "Record length " ++
        str (Nat.repr li.length) ++ str " exceeds 94 characters (extra trailing data)",
        3⟩ : AchDiagnostic) ∈ (processLine (splitLines text) i st' li).2 := by
      intro st'
      rw [processLine_eq_nonblank hne hpad]
      have hmem : (⟨i, 94, li.length, str "Record length " ++
          str (Nat.repr li.length) ++ str " exceeds 94 characters (extra trailing data)",
          3⟩ : AchDiagnostic) ∈ lengthDiags i li := by
        rw [lengthDiags, if_neg (by omega), if_pos hgt]
        exact List.mem_singleton.mpr rfl
      simp only [List.mem_append]
      exact Or.inl (Or.inr hmem)
    have hgo := parseAchGo_mem_at (splitLines text) _ i li hD (splitLines text) 0
      initState (by simpa using hget) (Nat.zero_le _)
    simp only [parseAch, List.mem_append]
    exact Or.inl hgo

/-- Witness for `record_length_rule`: the 3-line file with a short type-1
line, an exactly-94-character padding-free line and the length counts. -/
theorem record_length_rule_witness :
    ((splitLines (str "101")).get? 0 = some (str "101") ∧
     (parseAch (str "101")).countP
       (fun d => d.line == 0 && isLengthMsg d.message) =
       if (str "101").length == 94 then 0 else 1) ∧
    ((str "101").length < 94 ∧
     (⟨0, 0, max 1 (str "101").length, str "Record length " ++
       str (Nat.repr (str "101").length) ++
       str " is less than required 94 characters", 1⟩ : AchDiagnostic) ∈
       parseAch (str "101")) :=
  ⟨⟨by decide,
    (record_length_rule (str "101") 0 (str "101") (by decide) (by decide)
      (by decide)).1⟩,
   ⟨by decide,
    (record_length_rule (str "101") 0 (str "101") (by decide) (by decide)
      (by decide)).2.1 (by decide)⟩⟩
